import Mathlib

/-!
# Verification of the `memory_cli` event-log / card store

A shallow embedding, in Lean 4, of the parts of `memory_cli.py` that the
specification's testable properties talk about:

* the text primitives (`tokenize`, `normalize_statement`, Jaccard / cosine
  text similarity, `topic_key`, `contains_failure_signal`);
* the append-only event log (`append_event`) with per-episode sequence
  numbers and idempotency keys;
* the consolidation gates (candidate classification, evidence invariant,
  duplicate / novelty matching);
* retrieval scoring components and pack selection (`build_pack`);
* the dispute subsystem (`record_dispute`) and outcome attribution
  (`recompute_utility_projection`'s per-episode loop);
* ingestion (`record_episode`).

Modelling conventions used throughout:

* Python floats are modelled by exact rationals (`ℚ`).  A cosine similarity
  `dot / (na * nb)` involves a square root; since `dot ≥ 0` we represent the
  comparisons the code performs on cosines by exact equivalent comparisons
  on squares (`cosine_ge`, `score_gt`), so everything stays computable.
* SHA-256 based identifiers (`deterministic_id`, `sha256_text`) are modelled
  by injective string encodings: the code relies only on hashes being
  deterministic functions of their input (collisions are assumed absent).
* `uuid4` fresh-identifier generation is modelled by a `gensym` counter in
  the store state: the property relied on is that a generated id is distinct
  on every call.
* SQLite tables are association lists (or lists of rows); `INSERT OR
  IGNORE` / `INSERT OR REPLACE` are embedded explicitly.
-/

/-! ## Text primitives (memory_cli.py lines 30-251) -/

/-- The fixed stopword set `STOPWORDS` (lines 30-64). -/
def STOPWORDS : List String :=
  ["a", "an", "and", "are", "as", "at", "be", "but", "by", "for", "from",
   "has", "have", "if", "in", "is", "it", "of", "on", "or", "that", "the",
   "to", "was", "were", "with", "you", "your", "i", "we", "this", "those",
   "these"]

/-- Characters matched by the regex `[a-z0-9]` in `tokenize` (line 180). -/
def is_token_char (c : Char) : Bool :=
  ('a' ≤ c && c ≤ 'z') || ('0' ≤ c && c ≤ '9')

/-- Right fold collecting maximal `[a-z0-9]+` runs: returns the run that a
prefix of the list belongs to plus the completed runs after it. -/
def token_runs_aux : List Char → List Char × List String
  | [] => ([], [])
  | c :: cs =>
    let (run, out) := token_runs_aux cs
    if is_token_char c then (c :: run, out)
    else ([], if run.isEmpty then out else String.mk run :: out)

/-- Maximal `[a-z0-9]+` runs of a character list: `re.findall(r"[a-z0-9]+", s)`. -/
def token_runs (cs : List Char) : List String :=
  let (run, out) := token_runs_aux cs
  if run.isEmpty then out else String.mk run :: out

/-- `tokenize` (lines 179-181): lowercase, extract `[a-z0-9]+` runs, drop stopwords. -/
def tokenize (text : String) : List String :=
  (token_runs (text.toList.map Char.toLower)).filter (fun t => !(STOPWORDS.contains t))

/-- ASCII whitespace, modelling the characters `re.sub(r"\s+", ...)` collapses. -/
def is_ws (c : Char) : Bool :=
  c == ' ' || c == '\t' || c == '\n' || c == '\r' || c == '\x0b' || c == '\x0c'

/-- Replace each maximal whitespace run by a single space (`re.sub(r"\s+", " ", _)`). -/
def collapse_ws : List Char → List Char
  | [] => []
  | [c] => if is_ws c then [' '] else [c]
  | c :: c' :: cs =>
    if is_ws c then
      if is_ws c' then collapse_ws (c' :: cs)
      else ' ' :: collapse_ws (c' :: cs)
    else c :: collapse_ws (c' :: cs)

/-- Python `str.strip()` on ASCII whitespace. -/
def strip_ws (cs : List Char) : List Char :=
  ((cs.dropWhile is_ws).reverse.dropWhile is_ws).reverse

/-- `normalize_statement` (lines 184-188): collapse whitespace, strip, and
truncate to 280 characters with a `"..."` suffix. -/
def normalize_statement (text : String) (max_len : Nat := 280) : String :=
  let t := String.mk (collapse_ws (strip_ws text.toList))
  if max_len < t.length then String.mk (t.toList.take (max_len - 3)) ++ "..."
  else t

/-- Substring containment, modelling Python's `needle in haystack`. -/
def str_contains (haystack needle : String) : Bool :=
  go needle.toList haystack.toList
where
  go (n : List Char) : List Char → Bool
    | [] => n.isEmpty
    | c :: h => n.isPrefixOf (c :: h) || go n h

/-- `contains_failure_signal` (lines 240-243). -/
def contains_failure_signal (text : String) : Bool :=
  let t := String.mk (text.toList.map Char.toLower)
  ["error", "failed", "exception", "traceback", "non-zero", "timeout",
   "panic"].any (fun s => str_contains t s)

/-- `topic_key` (lines 246-251): the first token of length ≥ 4, else the
first token, else `"general"`.  Tokens are the stopword-filtered `tokenize`
output. -/
def topic_key (statement : String) : String :=
  let tokens := tokenize statement
  match tokens.find? (fun tok => 4 ≤ tok.length) with
  | some tok => tok
  | none => tokens.headD "general"

/-! ## Similarity (lines 191-214)

Jaccard similarity is exactly rational.  The cosine text similarity is
`dot / (na * nb)` with `na = sqrt (Σ v²)`; we carry the rational pair
`(dot, na² * nb²)` and perform the float comparisons of the source as exact
comparisons of real numbers, rewritten (using `dot ≥ 0`) into rational
arithmetic. -/

/-- Distinct-token list of a string: Python `set(tokenize(s))` (iteration
order is irrelevant to every use below). -/
def token_set (s : String) : List String := (tokenize s).dedup

/-- `jaccard_similarity` (lines 191-200), as an exact rational. -/
def jaccard_similarity (a b : String) : ℚ :=
  let ta := token_set a
  let tb := token_set b
  if ta.isEmpty && tb.isEmpty then 1
  else if ta.isEmpty || tb.isEmpty then 0
  else
    let inter := (ta.filter (fun t => tb.contains t)).length
    let union := ((ta ++ tb).dedup).length
    (inter : ℚ) / (union : ℚ)

/-- `Counter(tokenize(s))[tok]`: multiplicity of a token. -/
def token_count (s : String) (tok : String) : Nat := (tokenize s).count tok

/-- Numerator of `cosine_similarity_text` (line 209): the dot product of the
two token counters. -/
def cosine_dot (a b : String) : ℚ :=
  ((token_set a).filter (fun t => (token_set b).contains t)).foldl
    (fun acc t => acc + (token_count a t : ℚ) * (token_count b t : ℚ)) 0

/-- Squared norm of a token counter (`na * na` for `na` of line 210). -/
def counter_norm_sq (a : String) : ℚ :=
  (token_set a).foldl (fun acc t => acc + (token_count a t : ℚ) * (token_count a t : ℚ)) 0

/-- Decides `cosine_similarity_text a b ≥ t` exactly.  The cosine is
`dot / √(counter_norm_sq a * counter_norm_sq b)` with `dot ≥ 0`, and `0.0`
when either counter is empty (which is exactly when a squared norm is 0), so
for `t > 0` the comparison is equivalent to `t² · (na² · nb²) ≤ dot²`. -/
def cosine_ge (a b : String) (t : ℚ) : Bool :=
  let d := cosine_dot a b
  let p := counter_norm_sq a * counter_norm_sq b
  if p = 0 then decide (t ≤ 0)
  else decide (t ≤ 0) || decide (t ^ 2 * p ≤ d ^ 2)

/-- Decides `√q1 + c > √q2` for rationals `q1, q2 ≥ 0`, by squaring twice.
This is how strict comparisons between the (real-valued) match scores
`(lex + cos) / 2` of `find_best_similarity_match` are decided exactly. -/
def sqrt_add_gt (q1 c q2 : ℚ) : Bool :=
  if 0 ≤ c then
    let r := q2 - q1 - c ^ 2
    decide (r < 0) || (decide (0 < c) && decide (r ^ 2 < 4 * c ^ 2 * q1))
  else
    let l := q1 - q2 - c ^ 2
    decide (0 < l) && decide (4 * c ^ 2 * q2 < l ^ 2)

/-- Squared cosine similarity, `0` when a counter is empty: the real cosine
value of the source is `√(cosine_sq a b)`. -/
def cosine_sq (a b : String) : ℚ :=
  let p := counter_norm_sq a * counter_norm_sq b
  if p = 0 then 0 else (cosine_dot a b) ^ 2 / p

/-! ## The spec's reading of `topic_key` over unfiltered tokens

Claim C10 reads the spec's "first token ≥ 4 chars of the statement" as
ranging over all tokens of the statement, *including stopwords*.  The
following definition follows that reading of the spec's words (tokens are
the raw `[a-z0-9]+` runs, not filtered by the stopword set), for comparison
with the `topic_key` implemented by the source. -/

/-- Claimed topic key: first raw token (stopwords included) of length ≥ 4,
else the first raw token, else `"general"`. -/
def spec_topic_key_with_stopwords (statement : String) : String :=
  let tokens := token_runs (statement.toList.map Char.toLower)
  match tokens.find? (fun tok => 4 ≤ tok.length) with
  | some tok => tok
  | none => tokens.headD "general"

/-! ## Retrieval scoring components (lines 1751-1857) -/

/-- `scope_score` (lines 1818-1832). -/
def scope_score (desired_tier desired_scope_id card_tier card_scope_id : String) : ℚ :=
  if desired_tier = card_tier ∧ desired_scope_id = card_scope_id then 1
  else
    let tier_rank : String → Nat := fun t =>
      if t = "repo" then 3 else if t = "domain" then 2 else if t = "global" then 1 else 0
    if tier_rank desired_tier < tier_rank card_tier then 2/10
    else if card_tier = desired_tier then 8/10
    else if card_tier = "global" then 6/10
    else if card_tier = "domain" then 7/10
    else 5/10

/-- `kind_prior` (lines 1834-1842); dictionary `.get(kind, 0.5)`. -/
def kind_prior (kind : String) : ℚ :=
  if kind = "constraint" then 1
  else if kind = "commitment" then 9/10
  else if kind = "preference" then 8/10
  else if kind = "negative_result" then 85/100
  else if kind = "tactic" then 8/10
  else if kind = "fact" then 75/100
  else 5/10

/-- `status_weight` (lines 1844-1857). -/
def status_weight (status mode : String) : ℚ :=
  if mode = "auto_pack" then
    if status = "active" then 1
    else if status = "needs_recheck" then 35/100
    else if status = "deprecated" then 15/100
    else if status = "archived" then 1/10
    else 1/10
  else
    if status = "active" then 1
    else if status = "needs_recheck" then 8/10
    else if status = "deprecated" then 65/100
    else if status = "archived" then 6/10
    else 5/10

/-- The tactic utility scoring component (lines 1766-1769):
`(wins - losses) / max(1, wins + losses) + min(1.0, reuse / 10.0)` for
tactic cards, `0.0` otherwise. -/
def utility_component (kind : String) (wins losses reuse : Nat) : ℚ :=
  if kind = "tactic" then
    ((wins : ℚ) - (losses : ℚ)) / ((max 1 (wins + losses) : Nat) : ℚ)
      + min 1 ((reuse : ℚ) / 10)
  else 0

/-- The recency scoring component (line 1771):
`float(updated_event_id) / float(max_event_id)`. -/
def recency_component (updated_event_id max_event_id : Nat) : ℚ :=
  (updated_event_id : ℚ) / (max_event_id : ℚ)

/-- Dot product of two embedding vectors (`cosine_from_vectors`, line 232):
`sum(x * y for x, y in zip(a, b))`. -/
def dot_vec (a b : List ℚ) : ℚ := ((a.zip b).map (fun p => p.1 * p.2)).sum

/-- Squared norm of an embedding vector (`na * na` for `na` of line 233). -/
def norm_sq_vec (a : List ℚ) : ℚ := (a.map (fun x => x * x)).sum

/-- `score_total` before the needs_recheck damping (lines 1772-1780). -/
def score_total_of (lexical semantic scope kp truth utility recency : ℚ) : ℚ :=
  35/100 * lexical + 25/100 * semantic + 15/100 * scope + 1/10 * kp
    + 1/10 * truth + 5/100 * utility + 2/100 * recency

/-! ## Consolidation (lines 1135-1557) -/

/-- Python's `str.lower()` (ASCII model). -/
def str_lower (s : String) : String := String.mk (s.toList.map Char.toLower)

/-- `deterministic_id` (lines 174-176): `{prefix}_{sha256("|".join(parts))[:16]}`.
The SHA-256 truncation is modelled by the (injective, deterministic) joined
string itself; the code relies only on the id being a deterministic function
of `parts`. -/
def deterministic_id (prfx : String) (parts : List String) : String :=
  prfx ++ "_" ++ String.intercalate "|" parts

/-- The `Candidate` dataclass (lines 254-262). -/
structure Candidate where
  candidate_id : String
  kind : String
  statement : String
  scope_tier : String
  scope_id : String
  topic_key : String
  evidence_ref_ids : List String
deriving DecidableEq, Repr

/-- A row of the `cards` table, restricted to the columns consolidation and
packing read. -/
structure CardRow where
  card_id : String
  kind : String
  statement : String
  scope_tier : String
  scope_id : String
  topic_key : String
  status : String
  updated_event_id : Nat
deriving DecidableEq, Repr

/-- A row of `evidence_refs` restricted to `(evidence_ref_id, ref_kind)`, the
columns `validate_evidence_invariant` selects. -/
structure EvidenceKindRow where
  evidence_ref_id : String
  ref_kind : String
deriving DecidableEq, Repr

/-- A row of `evidence_refs` as read by `consolidate_episode` (line 1146):
`(evidence_ref_id, ref_kind, excerpt_text)`. -/
structure EvidenceExcerptRow where
  evidence_ref_id : String
  ref_kind : String
  excerpt_text : String
deriving DecidableEq, Repr

/-- `NORMATIVE_KINDS` (line 75). -/
def NORMATIVE_KINDS : List String := ["preference", "constraint", "commitment"]

/-- `KIND_PRIORITY` (lines 77-84); `.get(kind, 99)` at line 1160. -/
def KIND_PRIORITY (kind : String) : Nat :=
  if kind = "constraint" then 0
  else if kind = "commitment" then 1
  else if kind = "preference" then 2
  else if kind = "negative_result" then 3
  else if kind = "tactic" then 4
  else if kind = "fact" then 5
  else 99

/-- `EPISODE_KIND_CAPS` (lines 113-120); total on the closed kind set. -/
def EPISODE_KIND_CAPS (kind : String) : Nat :=
  if kind = "fact" then 4
  else if kind = "tactic" then 2
  else if kind = "negative_result" then 2
  else if kind = "preference" then 2
  else if kind = "constraint" then 1
  else if kind = "commitment" then 1
  else 0

/-- `EPISODE_SOFT_CAP` (line 122). -/
def EPISODE_SOFT_CAP : Nat := 12

/-- `BUDGET_CAPS` (lines 86-111); total on the closed tier × kind set. -/
def BUDGET_CAPS (tier kind : String) : Nat :=
  if tier = "repo" then
    if kind = "preference" then 80
    else if kind = "constraint" then 120
    else if kind = "commitment" then 120
    else if kind = "fact" then 300
    else if kind = "tactic" then 120
    else if kind = "negative_result" then 120
    else 0
  else if tier = "domain" then
    if kind = "preference" then 40
    else if kind = "constraint" then 60
    else if kind = "commitment" then 60
    else if kind = "fact" then 180
    else if kind = "tactic" then 80
    else if kind = "negative_result" then 80
    else 0
  else if tier = "global" then
    if kind = "preference" then 20
    else if kind = "constraint" then 30
    else if kind = "commitment" then 30
    else if kind = "fact" then 100
    else if kind = "tactic" then 40
    else if kind = "negative_result" then 40
    else 0
  else 0

/-- The keyword `"don't"` of the constraint scan (line 1395), built from
character literals. -/
def dont_keyword : String := String.mk ['d', 'o', 'n', '\'', 't']

/-- Candidate-kind classification of `generate_candidates` (lines 1390-1412),
given the evidence `ref_kind` and the normalized excerpt `text`. -/
def classify_kind (ref_kind text : String) : String :=
  let low := str_lower text
  if ref_kind = "user_span" then
    if ["prefer", "i like", "please use", "verbosity"].any (fun k => str_contains low k) then
      "preference"
    else if ["must", "do not", dont_keyword, "never", "always", "only"].any
        (fun k => str_contains low k) then
      "constraint"
    else if ["i will", String.mk ['i', '\'', 'l', 'l'], "we will", "plan to",
        "going to"].any (fun k => str_contains low k) then
      "commitment"
    else "fact"
  else if ref_kind = "tool_output" then
    if contains_failure_signal text then "negative_result"
    else if ["run ", "command", "steps", "procedure", "workflow"].any
        (fun k => str_contains low k) then
      "tactic"
    else "fact"
  else if ref_kind = "doc_span" then
    if ["run ", "steps", "procedure", "how to"].any (fun k => str_contains low k) then
      "tactic"
    else "fact"
  else "fact"

/-- One iteration of `generate_candidates` (lines 1383-1431): `none` when the
normalized excerpt is empty (the row is skipped). -/
def generate_candidate (episode_id scope_tier scope_id : String) (idx : Nat)
    (row : EvidenceExcerptRow) : Option Candidate :=
  let text := normalize_statement row.excerpt_text
  if text = "" then none
  else
    let kind := classify_kind row.ref_kind text
    let cand_id := deterministic_id "cand"
      [episode_id, toString idx, kind, str_lower (normalize_statement text)]
    some { candidate_id := cand_id, kind := kind, statement := text,
           scope_tier := scope_tier, scope_id := scope_id,
           topic_key := topic_key text, evidence_ref_ids := [row.evidence_ref_id] }

/-- `validate_evidence_invariant` (lines 1434-1458). -/
def validate_evidence_invariant (cand : Candidate) (evidence : List EvidenceKindRow) :
    Bool × String :=
  if cand.evidence_ref_ids.isEmpty then (false, "missing_evidence")
  else
    let kinds := (evidence.filter
      (fun r => cand.evidence_ref_ids.contains r.evidence_ref_id)).map (·.ref_kind)
    if NORMATIVE_KINDS.contains cand.kind then
      if kinds.contains "user_span" then (true, "ok")
      else (false, "normative_requires_user_span")
    else if cand.kind = "tactic" then
      if kinds.contains "tool_output" || kinds.contains "doc_span" then (true, "ok")
      else (false, "tactic_requires_tool_or_doc")
    else if cand.kind = "negative_result" then
      if !(kinds.contains "tool_output") then (false, "negative_result_requires_tool_output")
      else if !(contains_failure_signal cand.statement) then
        (false, "negative_result_requires_failure_signal")
      else (true, "ok")
    else if cand.kind = "fact" then
      if kinds.isEmpty then (false, "fact_requires_anchor")
      else (true, "ok")
    else (true, "ok")

/-- The best-match record kept by `find_best_similarity_match` (lines
1469-1480).  The real cosine of the source is `dot / √norm_prod` (and `0`
when `norm_prod = 0`), so it is `√(match_cos_sq)`. -/
structure SimMatch where
  card_id : String
  lex : ℚ
  dot : ℚ
  norm_prod : ℚ
deriving DecidableEq, Repr

/-- Squared cosine of a stored match. -/
def match_cos_sq (m : SimMatch) : ℚ :=
  if m.norm_prod = 0 then 0 else m.dot ^ 2 / m.norm_prod

/-- Decides `cosine ≥ t` for a stored match (exact version of the float
comparisons at lines 1209 and 1224). -/
def match_cos_ge (m : SimMatch) (t : ℚ) : Bool :=
  if m.norm_prod = 0 then decide (t ≤ 0)
  else decide (t ≤ 0) || decide (t ^ 2 * m.norm_prod ≤ m.dot ^ 2)

/-- The `(lexical, cosine)` pair computed for one card (lines 1471-1472). -/
def sim_match (cand_statement : String) (card : CardRow) : SimMatch :=
  { card_id := card.card_id,
    lex := jaccard_similarity cand_statement card.statement,
    dot := cosine_dot cand_statement card.statement,
    norm_prod := counter_norm_sq cand_statement * counter_norm_sq card.statement }

/-- Decides `score m > score b` where `score = (lex + cos) / 2` (line 1473-1474),
i.e. `cos m + (lex m - lex b) > cos b` with `cos = √(match_cos_sq)`. -/
def sim_score_gt (m b : SimMatch) : Bool :=
  sqrt_add_gt (match_cos_sq m) (m.lex - b.lex) (match_cos_sq b)

/-- `find_best_similarity_match` (lines 1460-1481): scan the active /
needs_recheck cards of the same `(kind, scope_tier, scope_id)`, keeping the
card with the strictly largest `(lex + cos) / 2`. -/
def find_best_similarity_match (cand : Candidate) (cards : List CardRow) : Option SimMatch :=
  (cards.filter (fun c =>
      c.kind == cand.kind && c.scope_tier == cand.scope_tier &&
      c.scope_id == cand.scope_id &&
      (c.status == "active" || c.status == "needs_recheck"))).foldl
    (fun best c =>
      let m := sim_match cand.statement c
      match best with
      | none => some m
      | some b => if sim_score_gt m b then some m else some b)
    none

/-- Insertion into a sorted list (used to model SQL `ORDER BY`). -/
def insert_sorted (le : α → α → Bool) (x : α) : List α → List α
  | [] => [x]
  | y :: ys => if le x y then x :: y :: ys else y :: insert_sorted le x ys

/-- Insertion sort by a boolean "comes no later than" relation. -/
def sort_by (le : α → α → Bool) : List α → List α
  | [] => []
  | x :: xs => insert_sorted le x (sort_by le xs)

/-- The order `ORDER BY updated_event_id DESC, card_id ASC` on card rows. -/
def card_recency_le (a b : CardRow) : Bool :=
  decide (b.updated_event_id < a.updated_event_id) ||
    (a.updated_event_id == b.updated_event_id && decide (a.card_id ≤ b.card_id))

/-- `find_exact_merge_target` (lines 1483-1497). -/
def find_exact_merge_target (cand : Candidate) (cards : List CardRow) : Option String :=
  let norm := str_lower (normalize_statement cand.statement)
  ((sort_by card_recency_le (cards.filter (fun c =>
      c.kind == cand.kind && c.scope_tier == cand.scope_tier &&
      c.scope_id == cand.scope_id &&
      (c.status == "active" || c.status == "needs_recheck")))).find?
    (fun c => str_lower (normalize_statement c.statement) == norm)).map (·.card_id)

/-- `find_supersede_target` (lines 1499-1513). -/
def find_supersede_target (cand : Candidate) (cards : List CardRow) : Option String :=
  if !(NORMATIVE_KINDS.contains cand.kind) then none
  else
    ((sort_by card_recency_le (cards.filter (fun c =>
        c.kind == cand.kind && c.scope_tier == cand.scope_tier &&
        c.scope_id == cand.scope_id && c.topic_key == cand.topic_key &&
        (c.status == "active" || c.status == "needs_recheck")))).head?).map (·.card_id)

/-- Outcome of the per-candidate consolidation pipeline (lines 1196-1359). -/
inductive Decision
  | rejected (reason : String)
  | merged (target_card_id : String)
  | admitted (card_id : String) (supersedes : Option String)
deriving DecidableEq, Repr

/-- The cap / budget / merge / admit stages of the per-candidate pipeline
(lines 1239-1333), reached when the candidate passed the evidence invariant
and the duplicate / novelty gates. -/
def candidate_decision_caps (cand : Candidate) (cards : List CardRow)
    (admitted_by_kind : String → Nat) (admitted_total : Nat) : Decision :=
  if EPISODE_KIND_CAPS cand.kind ≤ admitted_by_kind cand.kind then
    .rejected "episode_kind_cap_exceeded"
  else if EPISODE_SOFT_CAP ≤ admitted_total then
    .rejected "episode_soft_cap_exceeded"
  else if BUDGET_CAPS cand.scope_tier cand.kind ≤ (cards.filter (fun c =>
      c.scope_tier == cand.scope_tier && c.kind == cand.kind &&
      (c.status == "active" || c.status == "needs_recheck"))).length then
    .rejected "scope_kind_budget_exceeded"
  else
    match find_exact_merge_target cand cards with
    | some target => .merged target
    | none =>
      let sup := find_supersede_target cand cards
      let card_id := deterministic_id "card"
        [cand.kind, cand.scope_tier, cand.scope_id,
         str_lower (normalize_statement cand.statement)]
      .admitted card_id sup

/-- The per-candidate consolidation pipeline of `consolidate_episode`
(lines 1196-1333): evidence invariant, then duplicate gate (thresholds
`lex ≥ 0.80` and `cos ≥ 0.92` checked on the single best match), then
novelty gate (`lex ≥ 0.65` or `cos ≥ 0.78`), then caps and admission. -/
def candidate_decision (cand : Candidate) (cards : List CardRow)
    (evidence : List EvidenceKindRow) (admitted_by_kind : String → Nat)
    (admitted_total : Nat) : Decision :=
  if !(validate_evidence_invariant cand evidence).1 then
    .rejected "missing_required_evidence"
  else
    match find_best_similarity_match cand cards with
    | some best =>
      if 4/5 ≤ best.lex ∧ match_cos_ge best (23/25) then
        .rejected "duplicate_of_existing_card"
      else if 13/20 ≤ best.lex ∨ match_cos_ge best (39/50) then
        .rejected "novelty_below_threshold"
      else candidate_decision_caps cand cards admitted_by_kind admitted_total
    | none => candidate_decision_caps cand cards admitted_by_kind admitted_total

/-! ## The event log (`append_event`, lines 695-759) -/

/-- A row of `memory_events`, restricted to the columns the claims are
about (the payload is carried as an opaque canonical string). -/
structure MEvent where
  event_id : Nat
  episode_id : String
  seq_no : Nat
  event_type : String
  payload : String
  idempotency_key : String
deriving DecidableEq, Repr

/-- The log-side state: the `memory_events` table, the `AUTOINCREMENT`
counter for `event_id`, and the trace of event ids that have been handed to
the reducer (`apply_event` calls, line 752). -/
structure LogState where
  events : List MEvent
  next_event_id : Nat
  applied : List Nat
deriving DecidableEq, Repr

/-- The empty log; SQLite `AUTOINCREMENT` starts at 1. -/
def LogState.init : LogState := { events := [], next_event_id := 1, applied := [] }

/-- Result dictionary of `append_event`. -/
structure AppendResult where
  event_id : Nat
  episode_id : String
  seq_no : Nat
  inserted : Bool
deriving DecidableEq, Repr

/-- The idempotency lookup of `append_event` (lines 708-711). -/
def find_by_key (events : List MEvent) (key : String) : Option MEvent :=
  events.find? (fun e => e.idempotency_key == key)

/-- `COALESCE(MAX(seq_no), 0)` over the episode's events (lines 720-723). -/
def max_seq (events : List MEvent) (episode_id : String) : Nat :=
  ((events.filter (fun e => e.episode_id == episode_id)).map (·.seq_no)).foldl max 0

/-- `append_event` (lines 695-759): return the existing identifiers with
`inserted = False` when the idempotency key is already present (without
touching the log or the reducer); otherwise insert with
`seq_no = COALESCE(MAX(seq_no), 0) + 1` and, if `apply`, invoke the
reducer on the new event id. -/
def append_event (st : LogState) (episode_id event_type payload idempotency_key : String)
    (apply : Bool) : AppendResult × LogState :=
  match find_by_key st.events idempotency_key with
  | some e =>
    ({ event_id := e.event_id, episode_id := e.episode_id, seq_no := e.seq_no,
       inserted := false }, st)
  | none =>
    let seq_no := max_seq st.events episode_id + 1
    let event_id := st.next_event_id
    let ev : MEvent := { event_id := event_id, episode_id := episode_id,
                         seq_no := seq_no, event_type := event_type,
                         payload := payload, idempotency_key := idempotency_key }
    ({ event_id := event_id, episode_id := episode_id, seq_no := seq_no,
       inserted := true },
     { events := st.events ++ [ev], next_event_id := event_id + 1,
       applied := if apply then st.applied ++ [event_id] else st.applied })

/-- Log states reachable from the empty store by `append_event` calls. -/
inductive ReachableLog : LogState → Prop
  | init : ReachableLog LogState.init
  | step (st : LogState) (episode_id event_type payload idempotency_key : String)
      (apply : Bool) : ReachableLog st →
      ReachableLog (append_event st episode_id event_type payload idempotency_key apply).2

/-- The `seq_no` column of an episode's events, in insertion order. -/
def seq_nos (st : LogState) (episode_id : String) : List Nat :=
  (st.events.filter (fun e => e.episode_id == episode_id)).map (·.seq_no)

/-! ## Pack selection (`build_pack`, lines 1859-1996) -/

/-- A ranked retrieval candidate as consumed by `build_pack` (the fields of
the `retrieve_cards` output dictionaries that selection reads). -/
structure RankedCard where
  card_id : String
  kind : String
  topic_key : String
  status : String
  score_total : ℚ
deriving DecidableEq, Repr

/-- `PACK_TOTAL_CAP` (line 136). -/
def PACK_TOTAL_CAP : Nat := 8

/-- `PACK_SLOT_CAPS` (lines 137-142); total on the closed slot-group set. -/
def PACK_SLOT_CAPS (group : String) : Nat :=
  if group = "constraints_commitments" then 3
  else if group = "negative_result" then 2
  else if group = "tactic" then 2
  else if group = "fact" then 3
  else 0

/-- `PACK_TOPIC_CAP` (line 143). -/
def PACK_TOPIC_CAP : Nat := 2

/-- `group_for_kind` (lines 1888-1895). -/
def group_for_kind (kind : String) : String :=
  if kind = "constraint" ∨ kind = "commitment" ∨ kind = "preference" then
    "constraints_commitments"
  else if kind = "negative_result" then "negative_result"
  else if kind = "tactic" then "tactic"
  else "fact"

/-- The mutable selection state of `build_pack` (lines 1879-1886): the
`selected` list and the `topic_counts` / `slot_counts` dictionaries. -/
structure SelState where
  selected : List RankedCard
  topic_counts : String → Nat
  slot_counts : String → Nat

/-- The initial selection state (empty list, all counters 0). -/
def SelState.init : SelState :=
  { selected := [], topic_counts := fun _ => 0, slot_counts := fun _ => 0 }

/-- Appending a candidate and bumping its topic / slot counters (lines
1903-1905 and 1920-1922). -/
def SelState.add (st : SelState) (c : RankedCard) : SelState :=
  { selected := st.selected ++ [c],
    topic_counts := fun t => if t = c.topic_key then st.topic_counts t + 1
                             else st.topic_counts t,
    slot_counts := fun g => if g = group_for_kind c.kind then st.slot_counts g + 1
                            else st.slot_counts g }

/-- The failure pre-selection loop (lines 1898-1906): find the first ranked
negative_result within topic cap, select it if its slot is free, and stop. -/
def preselect_failure : List RankedCard → SelState → SelState
  | [], st => st
  | c :: rest, st =>
    if c.kind == "negative_result" && decide (st.topic_counts c.topic_key < PACK_TOPIC_CAP)
        && decide (st.slot_counts "negative_result" < PACK_SLOT_CAPS "negative_result") then
      st.add c
    else preselect_failure rest st

/-- The main selection loop (lines 1908-1922): stop at the total cap, skip
already-selected card ids, topic-capped topics and full slots. -/
def select_loop : List RankedCard → SelState → SelState
  | [], st => st
  | c :: rest, st =>
    if PACK_TOTAL_CAP ≤ st.selected.length then st
    else if st.selected.any (fun s => s.card_id == c.card_id) then select_loop rest st
    else if PACK_TOPIC_CAP ≤ st.topic_counts c.topic_key then select_loop rest st
    else if PACK_SLOT_CAPS (group_for_kind c.kind) ≤
        st.slot_counts (group_for_kind c.kind) then select_loop rest st
    else select_loop rest (st.add c)

/-- The selected cards of `build_pack` (lines 1879-1924), as a function of
the ranked list and of `has_recent_failure` (line 1897). -/
def pack_select (ranked : List RankedCard) (has_recent_failure : Bool) : List RankedCard :=
  let st0 := if has_recent_failure then preselect_failure ranked SelState.init
             else SelState.init
  ((select_loop ranked st0).selected).take PACK_TOTAL_CAP

/-- A per-selected-card exposure record (lines 1952-1962). -/
structure ExposureRecord where
  exposure_id : String
  card_id : String
  channel : String
  rank_position : Nat
  score_total : ℚ
deriving DecidableEq, Repr

/-- The exposure list of `build_pack` (lines 1952-1962): one record per
selected card, at rank `index + 1`. -/
def pack_exposures (pack_id channel : String) (selected : List RankedCard) :
    List ExposureRecord :=
  selected.enum.map (fun p =>
    { exposure_id := deterministic_id "exp" [pack_id, p.2.card_id, toString (p.1 + 1)],
      card_id := p.2.card_id, channel := channel, rank_position := p.1 + 1,
      score_total := p.2.score_total })

/-! ## Disputes (`record_dispute`, lines 2081-2152) -/

/-- `DISPUTE_WEIGHTS` (lines 124-128); `.get(kind, 0.0)` at line 2094. -/
def DISPUTE_WEIGHTS (ref_kind : String) : ℚ :=
  if ref_kind = "tool_output" then 1
  else if ref_kind = "doc_span" then 7/10
  else if ref_kind = "user_span" then 4/10
  else 0

/-- `DISPUTE_THRESHOLDS` (lines 130-134); `.get(tier, 4.0)` at line 2124. -/
def DISPUTE_THRESHOLDS (scope_tier : String) : ℚ :=
  if scope_tier = "repo" then 2
  else if scope_tier = "domain" then 3
  else if scope_tier = "global" then 4
  else 4

/-- A row of the `disputes` table. -/
structure DisputeRow where
  dispute_id : String
  card_id : String
  evidence_ref_id : String
  weight : ℚ
  event_id : Nat
deriving DecidableEq, Repr

/-- Engine state for the dispute subsystem: the log plus the `cards`,
`disputes` and `evidence_refs` projections it reads and writes. -/
structure EngineState where
  log : LogState
  cards : List CardRow
  disputes : List DisputeRow
  evidence : List EvidenceKindRow
deriving Repr

/-- The `dispute_recorded` reducer handler (lines 843-858): SQL
`INSERT OR REPLACE` keyed by `dispute_id`. -/
def upsert_dispute (rows : List DisputeRow) (d : DisputeRow) : List DisputeRow :=
  if rows.any (fun r => r.dispute_id == d.dispute_id) then
    rows.map (fun r => if r.dispute_id == d.dispute_id then d else r)
  else rows ++ [d]

/-- `SELECT COALESCE(SUM(weight), 0.0) FROM disputes WHERE card_id = ?`
(lines 2119-2122). -/
def dispute_mass (disputes : List DisputeRow) (card_id : String) : ℚ :=
  ((disputes.filter (fun d => d.card_id == card_id)).map (·.weight)).sum

/-- The identifying fields of a `card_status_changed` payload, as the opaque
payload string of the modelled event. -/
def status_change_payload (card_id from_status to_status reason_code : String) : String :=
  String.intercalate "|"
    ["card_status_changed", card_id, from_status, to_status, reason_code]

/-- The idempotency key of a `dispute_recorded` event (line 2107). -/
def dispute_key1 (card_id evidence_ref_id : String) : String :=
  "dispute_recorded:" ++ card_id ++ ":" ++ evidence_ref_id

/-- The idempotency key of the threshold `card_status_changed` event
(line 2140); the float threshold is rendered via its exact numerator and
denominator. -/
def dispute_key2 (card_id : String) (threshold : ℚ) : String :=
  "card_status_changed:" ++ card_id ++ ":needs_recheck:" ++
    toString threshold.num ++ ":" ++ toString threshold.den

/-- Return dictionary of `record_dispute` (lines 2146-2152). -/
structure DisputeResult where
  dispute_id : String
  weight : ℚ
  dispute_mass : ℚ
  threshold : ℚ
  status_changed : Bool
deriving DecidableEq, Repr

/-- `record_dispute` (lines 2081-2152): look up the evidence kind, emit
`dispute_recorded` (the reducer upserts the dispute when the event is fresh),
then sum the card's disputes and, when the mass reaches the scope-tier
threshold on an active card, emit `card_status_changed` (whose reducer
handler, lines 795-813, sets the card's status). -/
def record_dispute (st : EngineState) (episode_id card_id evidence_ref_id : String) :
    Except String (DisputeResult × EngineState) :=
  match st.evidence.find? (fun r => r.evidence_ref_id == evidence_ref_id) with
  | none => .error ("Evidence ref not found: " ++ evidence_ref_id)
  | some ref =>
    let weight := DISPUTE_WEIGHTS ref.ref_kind
    let dispute_id := deterministic_id "disp" [card_id, evidence_ref_id]
    let key1 := dispute_key1 card_id evidence_ref_id
    let payload1 := String.intercalate "|"
      ["dispute_recorded", dispute_id, card_id, evidence_ref_id]
    let res1 := append_event st.log episode_id "dispute_recorded" payload1 key1 true
    let new_disputes := if res1.1.inserted then
        upsert_dispute st.disputes
          { dispute_id := dispute_id, card_id := card_id,
            evidence_ref_id := evidence_ref_id, weight := weight,
            event_id := res1.1.event_id }
      else st.disputes
    let st1 : EngineState := { st with log := res1.2, disputes := new_disputes }
    match st1.cards.find? (fun c => c.card_id == card_id) with
    | none =>
      .ok ({ dispute_id := dispute_id, weight := weight, dispute_mass := 0,
             threshold := 0, status_changed := false }, st1)
    | some card =>
      let mass := dispute_mass st1.disputes card_id
      let threshold := DISPUTE_THRESHOLDS card.scope_tier
      if threshold ≤ mass ∧ card.status = "active" then
        let key2 := dispute_key2 card_id threshold
        let payload2 := status_change_payload card_id "active" "needs_recheck"
          "dispute_threshold_exceeded"
        let res2 := append_event st1.log episode_id "card_status_changed" payload2 key2 true
        let new_cards := if res2.1.inserted then
            st1.cards.map (fun c =>
              if c.card_id == card_id then
                { c with status := "needs_recheck", updated_event_id := res2.1.event_id }
              else c)
          else st1.cards
        let st2 : EngineState := { st1 with log := res2.2, cards := new_cards }
        .ok ({ dispute_id := dispute_id, weight := weight, dispute_mass := mass,
               threshold := threshold, status_changed := true }, st2)
      else
        .ok ({ dispute_id := dispute_id, weight := weight, dispute_mass := mass,
               threshold := threshold, status_changed := false }, st1)

/-- Folding a sequence of `record_dispute` calls (an error leaves the state
unchanged, as the aborted transaction would). -/
def run_disputes (st : EngineState) (episode_id card_id : String)
    (refs : List String) : EngineState :=
  refs.foldl (fun s e =>
    match record_dispute s episode_id card_id e with
    | .ok (_, s') => s'
    | .error _ => s) st

/-- The `card_status_changed` events of the log that move `card_id` from
`active` to `needs_recheck` with reason `dispute_threshold_exceeded`. -/
def dispute_status_events (st : EngineState) (card_id : String) : List MEvent :=
  st.log.events.filter (fun e =>
    e.event_type == "card_status_changed" &&
    e.payload == status_change_payload card_id "active" "needs_recheck"
      "dispute_threshold_exceeded")

/-! ## Outcome attribution (`recompute_utility_projection`, lines 2192-2281) -/

/-- `TERMINAL_OUTCOMES` (lines 145-150). -/
def TERMINAL_OUTCOMES : List String :=
  ["tool_success", "tool_failure", "user_confirmed_helpful", "user_corrected"]

/-- An `outcomes` row joined with its event's `seq_no` (lines 2215-2224). -/
structure OutcomeRow where
  event_id : Nat
  outcome_type : String
  evidence_ref_ids : List String
  seq_no : Nat
deriving DecidableEq, Repr

/-- An `exposures` row joined with the card kind and the source event's
`seq_no` (lines 2249-2260). -/
structure UtilExposureRow where
  card_id : String
  rank_position : Nat
  score_total : ℚ
  seq_no : Nat
  channel : String
  card_kind : String
deriving DecidableEq, Repr

/-- `ORDER BY me.seq_no ASC` on outcome rows. -/
def outcome_seq_le (a b : OutcomeRow) : Bool := decide (a.seq_no ≤ b.seq_no)

/-- `ORDER BY e.rank_position ASC, e.score_total DESC, e.card_id ASC`. -/
def exposure_order_le (a b : UtilExposureRow) : Bool :=
  decide (a.rank_position < b.rank_position) ||
    (a.rank_position == b.rank_position &&
      (decide (b.score_total < a.score_total) ||
        (a.score_total == b.score_total && decide (a.card_id ≤ b.card_id))))

/-- `success_signal` (lines 2238-2239): any `tool_success` or
`user_confirmed_helpful` outcome. -/
def success_signal (rows : List OutcomeRow) : Bool :=
  rows.any (fun r => r.outcome_type == "tool_success" ||
                     r.outcome_type == "user_confirmed_helpful")

/-- `failure_signal` (lines 2240-2241). -/
def failure_signal (rows : List OutcomeRow) : Bool :=
  rows.any (fun r => r.outcome_type == "tool_failure" ||
                     r.outcome_type == "user_corrected")

/-- `anchored_present` (lines 2235-2237): some outcome has a non-empty
evidence ref list. -/
def anchored_present (rows : List OutcomeRow) : Bool :=
  rows.any (fun r => !r.evidence_ref_ids.isEmpty)

/-- The earliest terminal outcome in seq order (lines 2242-2244). -/
def first_terminal (rows : List OutcomeRow) : Option OutcomeRow :=
  (sort_by outcome_seq_le rows).find?
    (fun r => TERMINAL_OUTCOMES.contains r.outcome_type)

/-- The credited exposures of one episode (lines 2249-2261): the top 2
`auto_pack` exposures of tactic cards whose event `seq_no` precedes the
earliest terminal outcome, ordered by
`(rank_position asc, score_total desc, card_id asc)`; empty when the episode
has no anchored outcome or no terminal outcome. -/
def eligible_exposures (outs : List OutcomeRow) (exps : List UtilExposureRow) :
    List UtilExposureRow :=
  match first_terminal outs with
  | none => []
  | some ft =>
    if !(anchored_present outs) then []
    else
      (sort_by exposure_order_le (exps.filter (fun e =>
        e.channel == "auto_pack" && e.card_kind == "tactic" &&
        decide (e.seq_no < ft.seq_no)))).take 2

/-- The per-episode body of `recompute_utility_projection` (lines 2214-2272)
restricted to the `(wins, losses)` components of the stats dictionary: each
credited exposure's card gains a win on a success signal and a loss on a
failure signal. -/
def process_episode_outcomes (outs : List OutcomeRow) (exps : List UtilExposureRow)
    (stats : String → Nat × Nat) : String → Nat × Nat :=
  let success := success_signal outs
  let failure := failure_signal outs
  (eligible_exposures outs exps).foldl
    (fun st e => fun c =>
      if c = e.card_id then
        ((st c).1 + (if success then 1 else 0), (st c).2 + (if failure then 1 else 0))
      else st c)
    stats

/-! ## Ingestion (`record_episode`, lines 468-693)

The model covers the payload fields relevant to claim C9: the three optional
identifier fields (`episode_id`, `artifact_id`, `evidence_ref_id`) are
`Option`s, generated freshly (uuid4 in the source, a gensym counter here)
when absent.  The timestamp defaults (`started_at`/`ended_at` fall back to
the wall clock in the source) are outside the deterministic model, so the
model takes them as supplied; artifact `content_path` is always
store-generated (the source's explicit-path branch is not modelled). -/

/-- `sha256_text` (lines 170-171), modelled by an injective tagging of the
input: the code relies only on the digest being a deterministic function of
the text. -/
def sha256_text (s : String) : String := "sha256:" ++ s

/-- An artifact entry of the `record-episode` payload (lines 524-529). -/
structure ArtifactPayload where
  artifact_id : Option String
  artifact_kind : String
  mime_type : String
  content : String
  metadata_json : String
deriving DecidableEq, Repr

/-- An evidence-ref entry of the `record-episode` payload (lines 584-593). -/
structure EvidencePayload where
  evidence_ref_id : Option String
  ref_kind : String
  artifact_id : Option String
  target_id : Option String
  start_offset : Option Nat
  end_offset : Option Nat
  line_start : Option Nat
  line_end : Option Nat
  excerpt_text : Option String
deriving DecidableEq, Repr

/-- The `record-episode` input payload (lines 468-477). -/
structure EpisodePayload where
  episode_id : Option String
  user_text : String
  assistant_text : String
  model_name : Option String
  started_at : String
  ended_at : String
  metadata_json : String
  artifacts : List ArtifactPayload
  evidence_refs : List EvidencePayload
deriving DecidableEq, Repr

/-- A row of the `episodes` table. -/
structure EpisodeRow where
  episode_id : String
  user_text : String
  assistant_text : String
  model_name : Option String
  metadata_json : String
  payload_hash : String
  started_at : String
  ended_at : String
deriving DecidableEq, Repr

/-- A row of the `artifacts` table. -/
structure ArtifactRow where
  artifact_id : String
  episode_id : String
  artifact_kind : String
  content_path : String
  content_hash : String
  mime_type : String
  metadata_json : String
deriving DecidableEq, Repr

/-- A row of the `evidence_refs` table. -/
structure EvidenceRefRow where
  evidence_ref_id : String
  episode_id : String
  artifact_id : Option String
  ref_kind : String
  target_id : String
  start_offset : Option Nat
  end_offset : Option Nat
  line_start : Option Nat
  line_end : Option Nat
  excerpt_text : String
  ref_hash : String
deriving DecidableEq, Repr

/-- The engine store: event log, the three ingestion tables, the artifact
blob directory (path ↦ content), and the fresh-id counter modelling uuid4. -/
structure Store where
  log : LogState
  episodes : List EpisodeRow
  artifacts : List ArtifactRow
  evidence_refs : List EvidenceRefRow
  files : String → Option String
  gensym : Nat

/-- The empty store. -/
def Store.init : Store :=
  { log := LogState.init, episodes := [], artifacts := [], evidence_refs := [],
    files := fun _ => none, gensym := 0 }

/-- A freshly generated identifier (`f"{prefix}_{uuid.uuid4().hex[:16]}"`):
modelled by the gensym counter, so each call yields a new id. -/
def fresh_id (st : Store) (prfx : String) : String × Store :=
  (prfx ++ "_gen" ++ toString st.gensym, { st with gensym := st.gensym + 1 })

/-- Writing an artifact blob. -/
def write_file (files : String → Option String) (path content : String) :
    String → Option String :=
  fun q => if q = path then some content else files q

/-- Python slice `s[a:b]` for natural indices. -/
def py_slice (s : String) (a b : Nat) : String :=
  String.mk ((s.toList.drop a).take (b - a))

/-- Python slice `s[:n]`. -/
def py_take (s : String) (n : Nat) : String := String.mk (s.toList.take n)

/-- Python `None`-or-value rendering used inside the composite ref-hash key
(line 604). -/
def opt_nat_str : Option Nat → String
  | none => "None"
  | some n => toString n

/-- `extract_evidence_excerpt` (lines 659-693), reading the episode and
artifact tables and the blob directory (`splitlines` modelled on `"\n"`). -/
def extract_evidence_excerpt (episodes : List EpisodeRow) (artifacts : List ArtifactRow)
    (files : String → Option String) (episode_id ref_kind : String)
    (artifact_id : Option String)
    (start_offset end_offset line_start line_end : Option Nat) : String :=
  if ref_kind = "user_span" then
    match episodes.find? (fun r => r.episode_id == episode_id) with
    | none => ""
    | some row =>
      match start_offset, end_offset with
      | some s, some e => py_slice row.user_text s e
      | _, _ => py_take row.user_text 280
  else
    match artifact_id with
    | none => ""
    | some aid =>
      match artifacts.find? (fun r => r.artifact_id == aid) with
      | none => ""
      | some row =>
        match files row.content_path with
        | none => ""
        | some content =>
          match line_start, line_end with
          | some ls, some le2 =>
            let lines := content.splitOn "\n"
            let s := max 1 ls
            let e := max s le2
            py_take (String.intercalate "\n" ((lines.drop (s - 1)).take (e - (s - 1)))) 280
          | _, _ =>
            match start_offset, end_offset with
            | some s, some e => py_slice content s e
            | _, _ => py_take content 280

/-- The canonical-JSON episode digest input (lines 479-488), modelled as a
deterministic joined encoding of the same fields. -/
def canonical_episode (episode_id : String) (p : EpisodePayload) : String :=
  String.intercalate "|"
    [episode_id, p.user_text, p.assistant_text,
     (match p.model_name with | none => "None" | some m => m),
     p.metadata_json, p.started_at, p.ended_at]

/-- The artifact loop body of `record_episode` (lines 524-582): generate the
id if missing, write the blob at the store-generated path, hash the content,
`INSERT OR IGNORE` the row, and emit `artifact_recorded`. -/
def record_artifact_step (episode_id : String) (st : Store) (a : ArtifactPayload) : Store :=
  let idst := match a.artifact_id with
    | some i => (i, st)
    | none => fresh_id st "art"
  let artifact_id := idst.1
  let st1 := idst.2
  let content_path := "artifacts/" ++ artifact_id ++ ".txt"
  let files1 := write_file st1.files content_path a.content
  let content_hash := if a.content ≠ "" then sha256_text a.content
    else match files1 content_path with
      | some c => sha256_text c
      | none => sha256_text ""
  let artifacts1 := if st1.artifacts.any (fun r => r.artifact_id == artifact_id) then
      st1.artifacts
    else st1.artifacts ++
      [{ artifact_id := artifact_id, episode_id := episode_id,
         artifact_kind := a.artifact_kind, content_path := content_path,
         content_hash := content_hash, mime_type := a.mime_type,
         metadata_json := a.metadata_json }]
  let key := "artifact_recorded:" ++ episode_id ++ ":" ++ artifact_id ++ ":" ++ content_hash
  let payload := String.intercalate "|"
    ["artifact_recorded", artifact_id, a.artifact_kind, content_hash]
  let res := append_event st1.log episode_id "artifact_recorded" payload key true
  { st1 with files := files1, artifacts := artifacts1, log := res.2 }

/-- The evidence-ref loop body of `record_episode` (lines 584-641): generate
the id if missing, extract the excerpt when absent, compute `ref_hash`,
`INSERT OR IGNORE` the row, and emit `evidence_ref_recorded`. -/
def record_evidence_step (episode_id : String) (st : Store) (r : EvidencePayload) : Store :=
  let idst := match r.evidence_ref_id with
    | some i => (i, st)
    | none => fresh_id st "ev"
  let evidence_ref_id := idst.1
  let st1 := idst.2
  let target_id := match r.target_id with
    | some t => t
    | none => r.artifact_id.getD "episode"
  let excerpt0 := r.excerpt_text.getD ""
  let excerpt := if excerpt0 = "" then
      extract_evidence_excerpt st1.episodes st1.artifacts st1.files episode_id
        r.ref_kind r.artifact_id r.start_offset r.end_offset r.line_start r.line_end
    else excerpt0
  let ref_hash := if excerpt ≠ "" then sha256_text excerpt
    else sha256_text (target_id ++ ":" ++ opt_nat_str r.start_offset ++ ":" ++
      opt_nat_str r.end_offset ++ ":" ++ opt_nat_str r.line_start ++ ":" ++
      opt_nat_str r.line_end)
  let refs1 := if st1.evidence_refs.any (fun x => x.evidence_ref_id == evidence_ref_id) then
      st1.evidence_refs
    else st1.evidence_refs ++
      [{ evidence_ref_id := evidence_ref_id, episode_id := episode_id,
         artifact_id := r.artifact_id, ref_kind := r.ref_kind,
         target_id := target_id, start_offset := r.start_offset,
         end_offset := r.end_offset, line_start := r.line_start,
         line_end := r.line_end, excerpt_text := excerpt, ref_hash := ref_hash }]
  let key := "evidence_ref_recorded:" ++ episode_id ++ ":" ++ evidence_ref_id ++ ":" ++ ref_hash
  let payload := String.intercalate "|"
    ["evidence_ref_recorded", evidence_ref_id, r.ref_kind, ref_hash]
  let res := append_event st1.log episode_id "evidence_ref_recorded" payload key true
  { st1 with evidence_refs := refs1, log := res.2 }

/-- `record_episode` (lines 468-657): insert the episode row if absent, emit
`episode_recorded`, process artifacts and evidence refs, and emit the
trailing `consolidation_triggered`. -/
def record_episode (st : Store) (p : EpisodePayload) : Store :=
  let idst := match p.episode_id with
    | some i => (i, st)
    | none => fresh_id st "ep"
  let episode_id := idst.1
  let st1 := idst.2
  let payload_hash := sha256_text (canonical_episode episode_id p)
  let episodes1 := if st1.episodes.any (fun r => r.episode_id == episode_id) then
      st1.episodes
    else st1.episodes ++
      [{ episode_id := episode_id, user_text := p.user_text,
         assistant_text := p.assistant_text, model_name := p.model_name,
         metadata_json := p.metadata_json, payload_hash := payload_hash,
         started_at := p.started_at, ended_at := p.ended_at }]
  let key1 := "episode_recorded:" ++ episode_id ++ ":" ++ payload_hash
  let payload1 := String.intercalate "|" ["episode_recorded", episode_id, payload_hash]
  let res1 := append_event st1.log episode_id "episode_recorded" payload1 key1 true
  let st2 := { st1 with episodes := episodes1, log := res1.2 }
  let st3 := p.artifacts.foldl (record_artifact_step episode_id) st2
  let st4 := p.evidence_refs.foldl (record_evidence_step episode_id) st3
  let key2 := "consolidation_triggered:" ++ episode_id
  let payload2 := String.intercalate "|" ["consolidation_triggered", episode_id]
  let res2 := append_event st4.log episode_id "consolidation_triggered" payload2 key2 true
  { st4 with log := res2.2 }

/-! ## Derived forms of the ingestion steps, used by the idempotency analysis -/

/-- The store-generated blob path of an artifact whose id is supplied. -/
def artifact_path (a : ArtifactPayload) : String :=
  "artifacts/" ++ a.artifact_id.getD "" ++ ".txt"

/-- The blob writes performed by the artifact loop, as a function on the
blob directory. -/
def apply_writes (la : List ArtifactPayload) (f : String → Option String) :
    String → Option String :=
  la.foldl (fun g a => write_file g (artifact_path a) a.content) f

/-- The `artifacts` row inserted by `record_artifact_step` when the id is
supplied. -/
def artifact_row_val (episode_id : String) (a : ArtifactPayload) (aid : String) :
    ArtifactRow :=
  { artifact_id := aid, episode_id := episode_id,
    artifact_kind := a.artifact_kind,
    content_path := "artifacts/" ++ aid ++ ".txt",
    content_hash := sha256_text a.content, mime_type := a.mime_type,
    metadata_json := a.metadata_json }

/-- The `target_id` computed by `record_evidence_step`. -/
def evidence_target_val (r : EvidencePayload) : String :=
  match r.target_id with
  | some t => t
  | none => r.artifact_id.getD "episode"

/-- The excerpt computed by `record_evidence_step` from the given table
state. -/
def evidence_excerpt_val (episodes : List EpisodeRow) (artifacts : List ArtifactRow)
    (files : String → Option String) (episode_id : String) (r : EvidencePayload) :
    String :=
  if r.excerpt_text.getD "" = "" then
    extract_evidence_excerpt episodes artifacts files episode_id
      r.ref_kind r.artifact_id r.start_offset r.end_offset r.line_start r.line_end
  else r.excerpt_text.getD ""

/-- The `ref_hash` computed by `record_evidence_step` from the given table
state. -/
def evidence_hash_val (episodes : List EpisodeRow) (artifacts : List ArtifactRow)
    (files : String → Option String) (episode_id : String) (r : EvidencePayload) :
    String :=
  let excerpt := evidence_excerpt_val episodes artifacts files episode_id r
  if excerpt ≠ "" then sha256_text excerpt
  else sha256_text (evidence_target_val r ++ ":" ++ opt_nat_str r.start_offset ++ ":" ++
    opt_nat_str r.end_offset ++ ":" ++ opt_nat_str r.line_start ++ ":" ++
    opt_nat_str r.line_end)

/-- The `evidence_refs` row inserted by `record_evidence_step` when the id is
supplied. -/
def evidence_row_val (episodes : List EpisodeRow) (artifacts : List ArtifactRow)
    (files : String → Option String) (episode_id : String) (r : EvidencePayload)
    (rid : String) : EvidenceRefRow :=
  { evidence_ref_id := rid, episode_id := episode_id,
    artifact_id := r.artifact_id, ref_kind := r.ref_kind,
    target_id := evidence_target_val r, start_offset := r.start_offset,
    end_offset := r.end_offset, line_start := r.line_start,
    line_end := r.line_end,
    excerpt_text := evidence_excerpt_val episodes artifacts files episode_id r,
    ref_hash := evidence_hash_val episodes artifacts files episode_id r }

/-- The idempotency key of the `evidence_ref_recorded` event when the id is
supplied. -/
def evidence_key_val (episodes : List EpisodeRow) (artifacts : List ArtifactRow)
    (files : String → Option String) (episode_id : String) (r : EvidencePayload)
    (rid : String) : String :=
  "evidence_ref_recorded:" ++ episode_id ++ ":" ++ rid ++ ":" ++
    evidence_hash_val episodes artifacts files episode_id r

/-- The `episodes` row inserted by `record_episode` when the id is
supplied. -/
def episode_row_val (eid : String) (p : EpisodePayload) : EpisodeRow :=
  { episode_id := eid, user_text := p.user_text,
    assistant_text := p.assistant_text, model_name := p.model_name,
    metadata_json := p.metadata_json,
    payload_hash := sha256_text (canonical_episode eid p),
    started_at := p.started_at, ended_at := p.ended_at }

/-- The store after the episode phase of `record_episode` (row insert plus
`episode_recorded` event) when the id is supplied. -/
def episode_phase_store (S : Store) (p : EpisodePayload) (eid : String) : Store :=
  { S with
    episodes := (if S.episodes.any (fun r => r.episode_id == eid) then S.episodes
      else S.episodes ++ [episode_row_val eid p]),
    log := (append_event S.log eid "episode_recorded"
      (String.intercalate "|"
        ["episode_recorded", eid, sha256_text (canonical_episode eid p)])
      ("episode_recorded:" ++ eid ++ ":" ++ sha256_text (canonical_episode eid p))
      true).2 }

/-- The evidence ref of the C9 counterexample: it omits `evidence_ref_id`,
so each run generates a fresh one. -/
def c9_evref : EvidencePayload :=
  { evidence_ref_id := none, ref_kind := "user_span", artifact_id := none,
    target_id := none, start_offset := none, end_offset := none,
    line_start := none, line_end := none, excerpt_text := some "boom" }

/-- The C9 counterexample payload: the episode id is supplied but its single
evidence ref is `c9_evref`. -/
def c9_payload : EpisodePayload :=
  { episode_id := some "ep1", user_text := "u", assistant_text := "a",
    model_name := none, started_at := "t0", ended_at := "t1",
    metadata_json := "{}", artifacts := [], evidence_refs := [c9_evref] }

/-! ## Spec-side formulations used by the amended claims -/

/-- Amended C10 reading: the first stopword-filtered token of length ≥ 4,
else the first such token, else `"general"` — stated by filtering rather
than by the source's scan, for comparison with `topic_key`. -/
def spec_topic_key_filtered (s : String) : String :=
  let toks := tokenize s
  ((toks.filter (fun t => 4 ≤ t.length)).headD (toks.headD "general"))

/-- The selection-loop invariant of `build_pack`: counters agree with the
derived counts of the selected list, all caps hold, every selected card is
ranked, and selected card ids are distinct. -/
def PackInv (ranked : List RankedCard) (st : SelState) : Prop :=
  (∀ t, st.topic_counts t = (st.selected.filter (fun c => c.topic_key == t)).length) ∧
  (∀ g, st.slot_counts g =
    (st.selected.filter (fun c => group_for_kind c.kind == g)).length) ∧
  (∀ t, (st.selected.filter (fun c => c.topic_key == t)).length ≤ PACK_TOPIC_CAP) ∧
  (∀ g, (st.selected.filter (fun c => group_for_kind c.kind == g)).length ≤
    PACK_SLOT_CAPS g) ∧
  (∀ c ∈ st.selected, c ∈ ranked) ∧
  (st.selected.map (·.card_id)).Nodup


/-! ## Concrete data for the duplicate-gate analysis (claim C3)

A candidate and two stored cards of the same `(kind, scope_tier, scope_id)`.
Against the candidate `"alpha beta gamma delta"`:

* `cex_cardA` has the same token set with counts `(1, 2, 2, 4)`, so its
  Jaccard similarity is `1` and its cosine is `9/10 < 0.92`; its average
  score is `0.95`.
* `cex_cardB` has counts `6` on the four shared tokens plus `5` on a fifth
  token, so its Jaccard similarity is `4/5 ≥ 0.80` and its cosine is
  `24/26 = 12/13 ≥ 0.92`; its average score is about `0.86`.

`cex_cardB` meets both duplicate thresholds, but `cex_cardA` is the single
best average-score match and fails the cosine threshold. -/

/-- The candidate of the C3 counterexample. -/
def cex_candidate : Candidate :=
  { candidate_id := "cand_cex", kind := "fact",
    statement := "alpha beta gamma delta", scope_tier := "repo",
    scope_id := "default", topic_key := "alpha", evidence_ref_ids := ["ev1"] }

/-- Stored card with the candidate's token set at counts `(1, 2, 2, 4)`. -/
def cex_cardA : CardRow :=
  { card_id := "card_a", kind := "fact",
    statement := "alpha beta beta gamma gamma delta delta delta delta",
    scope_tier := "repo", scope_id := "default", topic_key := "alpha",
    status := "active", updated_event_id := 1 }

/-- Stored card with the candidate's tokens at count 6 each plus five
occurrences of a fifth token. -/
def cex_cardB : CardRow :=
  { card_id := "card_b", kind := "fact",
    statement := "alpha alpha alpha alpha alpha alpha beta beta beta beta beta beta gamma gamma gamma gamma gamma gamma delta delta delta delta delta delta epsilon epsilon epsilon epsilon epsilon",
    scope_tier := "repo", scope_id := "default", topic_key := "alpha",
    status := "active", updated_event_id := 2 }

/-- The evidence table of the C3 counterexample. -/
def cex_evidence : List EvidenceKindRow :=
  [{ evidence_ref_id := "ev1", ref_kind := "user_span" }]


/-- The card of the C7 witness scenario: an active tactic card at `repo`
scope (threshold 2.0). -/
def c7_card : CardRow :=
  { card_id := "card_t", kind := "tactic", statement := "use the retry flag",
    scope_tier := "repo", scope_id := "default", topic_key := "retry",
    status := "active", updated_event_id := 1 }

/-- The evidence table of the C7 witness scenario: two `tool_output` refs
(weight 1.0) and one `doc_span` ref (weight 0.7). -/
def c7_evidence : List EvidenceKindRow :=
  [{ evidence_ref_id := "dv1", ref_kind := "tool_output" },
   { evidence_ref_id := "dv2", ref_kind := "doc_span" },
   { evidence_ref_id := "dv3", ref_kind := "tool_output" }]

/-- The dispute sequence of the C7 witness scenario: mass 1.0, then 1.7
(below threshold 2.0), then 2.7 (crossing it). -/
def c7_refs : List String := ["dv1", "dv2", "dv3"]

/-- The single outcome row of the C8 witness scenario: an anchored terminal
success outcome at `seq_no` 5. -/
def c8_ft : OutcomeRow :=
  { event_id := 10, outcome_type := "tool_success", evidence_ref_ids := ["ev1"],
    seq_no := 5 }

/-- The outcome list of the C8 witness scenario. -/
def c8_outs : List OutcomeRow := [c8_ft]

/-- The exposures of the C8 witness scenario: three auto_pack tactic
exposures at ranks 1, 2, 3, all preceding the terminal outcome. -/
def c8_exps : List UtilExposureRow :=
  [{ card_id := "T1", rank_position := 1, score_total := 9/10, seq_no := 2,
     channel := "auto_pack", card_kind := "tactic" },
   { card_id := "T2", rank_position := 2, score_total := 8/10, seq_no := 2,
     channel := "auto_pack", card_kind := "tactic" },
   { card_id := "T3", rank_position := 3, score_total := 7/10, seq_no := 2,
     channel := "auto_pack", card_kind := "tactic" }]

/-- The artifact of the C9 witness payload, with its id supplied. -/
def c9_full_artifact : ArtifactPayload :=
  { artifact_id := some "art1", artifact_kind := "tool_output",
    mime_type := "text/plain", content := "hello", metadata_json := "{}" }

/-- The evidence ref of the C9 witness payload, with its id supplied. -/
def c9_full_evref : EvidencePayload :=
  { evidence_ref_id := some "ev9", ref_kind := "tool_output",
    artifact_id := some "art1", target_id := none, start_offset := none,
    end_offset := none, line_start := none, line_end := none,
    excerpt_text := some "exc" }

/-- The C9 witness payload: every optional identifier is supplied. -/
def c9_full_payload : EpisodePayload :=
  { episode_id := some "ep2", user_text := "u", assistant_text := "a",
    model_name := some "m", started_at := "t0", ended_at := "t1",
    metadata_json := "{}", artifacts := [c9_full_artifact],
    evidence_refs := [c9_full_evref] }

/-- The stored event of the C1 witness scenario. -/
def c1_event : MEvent :=
  { event_id := 1, episode_id := "ep", seq_no := 1, event_type := "t",
    payload := "pl", idempotency_key := "k" }

/-- The log of the C1 witness scenario: one event under key `"k"`. -/
def c1_log : LogState := { events := [c1_event], next_event_id := 2, applied := [1] }

/-- The reachable log of the C2 witness scenario: one append from the empty
log. -/
def c2_log : LogState := (append_event LogState.init "ep" "t" "pl" "k" true).2

/-- The single ranked card of the C6 witness scenario. -/
def c6_card : RankedCard :=
  { card_id := "c1", kind := "fact", topic_key := "alpha", status := "active",
    score_total := 1/2 }

/-- The `record_dispute` fold invariant for a single card `card_id` of scope
tier `tier` over a fixed evidence table `ev`: every dispute row belongs to
the card, carries its deterministic id and the weight of its evidence kind,
and has its event in the log; and the card is either still active with no
threshold transition and mass below threshold, or needs_recheck with exactly
one transition and mass at or above threshold. -/
def DisputeInv (ev : List EvidenceKindRow) (card_id tier : String)
    (st : EngineState) : Prop :=
  st.evidence = ev ∧
  (∀ d ∈ st.disputes, d.card_id = card_id ∧
    d.dispute_id = deterministic_id "disp" [card_id, d.evidence_ref_id] ∧
    (∃ r, r ∈ ev ∧ r.evidence_ref_id = d.evidence_ref_id ∧
      d.weight = DISPUTE_WEIGHTS r.ref_kind) ∧
    find_by_key st.log.events (dispute_key1 card_id d.evidence_ref_id) ≠ none) ∧
  (∃ cF, st.cards.find? (fun c => c.card_id == card_id) = some cF ∧
    cF.scope_tier = tier ∧
    ((cF.status = "active" ∧ (dispute_status_events st card_id).length = 0 ∧
      dispute_mass st.disputes card_id < DISPUTE_THRESHOLDS tier ∧
      find_by_key st.log.events (dispute_key2 card_id (DISPUTE_THRESHOLDS tier)) = none) ∨
     (cF.status = "needs_recheck" ∧ (dispute_status_events st card_id).length = 1 ∧
      DISPUTE_THRESHOLDS tier ≤ dispute_mass st.disputes card_id)))

/-! # Theorems -/

/-! ## C10: `topic_key` -/

/-- `find?` is the head of `filter`. -/
theorem find?_eq_head?_filter (p : α → Bool) (l : List α) :
    l.find? p = (l.filter p).head? := by
  induction l with
  | nil => rfl
  | cons x xs ih =>
    by_cases h : p x = true
    · rw [List.find?_cons_of_pos _ h, List.filter_cons_of_pos h, List.head?_cons]
    · rw [List.find?_cons_of_neg _ h, List.filter_cons_of_neg h, ih]

/-- C10 (counterexample): on the statement `"those dogs"` the implemented
`topic_key` returns `"dogs"` (stopwords are filtered out before the ≥ 4-char
scan), while the claim's reading over tokens including stopwords returns
`"those"`; the two disagree. -/
theorem topic_key_stopwords_counterexample :
    topic_key "those dogs" = "dogs" ∧
    spec_topic_key_with_stopwords "those dogs" = "those" ∧
    topic_key "those dogs" ≠ spec_topic_key_with_stopwords "those dogs" :=
  ⟨by decide, by decide, by decide⟩

/-- C10 (amended): `topic_key` equals the first *stopword-filtered* token of
the statement with at least 4 characters, otherwise the first such token,
otherwise `"general"`. -/
theorem topic_key_eq_filtered_spec (s : String) :
    topic_key s = spec_topic_key_filtered s := by
  simp only [topic_key, spec_topic_key_filtered]
  rw [find?_eq_head?_filter]
  cases h : (tokenize s).filter (fun t => 4 ≤ t.length) with
  | nil => simp [h, List.headD]
  | cons x xs => simp [h, List.headD]

/-! ## C4: the negative-result gate on `"Command succeeded."` -/

/-- C4 (counterexample): the `tool_output` excerpt `"Command succeeded."`
contains the tactic keyword `"command"` and no failure signal, so
`generate_candidates` classifies it as `tactic` — not `negative_result` —
and the consolidation pipeline does not reject it with
`negative_result_requires_failure_signal` (it admits it). -/
theorem command_succeeded_not_negative_result :
    (generate_candidate "ep1" "repo" "default" 0
        { evidence_ref_id := "ev1", ref_kind := "tool_output",
          excerpt_text := "Command succeeded." }).map (·.kind) = some "tactic" ∧
    (generate_candidate "ep1" "repo" "default" 0
        { evidence_ref_id := "ev1", ref_kind := "tool_output",
          excerpt_text := "Command succeeded." }).map
        (fun c => candidate_decision c []
          [{ evidence_ref_id := "ev1", ref_kind := "tool_output" }] (fun _ => 0) 0) ≠
      some (.rejected "negative_result_requires_failure_signal") :=
  ⟨by decide, by decide⟩

/-- C4 (amended): on an empty store, the `tool_output` excerpt
`"Command succeeded."` is classified `tactic` (it contains the keyword
`"command"`) and admitted, while the same text containing
`"timeout after 30s"` is classified `negative_result` and admitted. -/
theorem command_succeeded_tactic_timeout_negative :
    (generate_candidate "ep1" "repo" "default" 0
        { evidence_ref_id := "ev1", ref_kind := "tool_output",
          excerpt_text := "Command succeeded." }).map (·.kind) = some "tactic" ∧
    (generate_candidate "ep1" "repo" "default" 0
        { evidence_ref_id := "ev1", ref_kind := "tool_output",
          excerpt_text := "Command succeeded." }).map
        (fun c => candidate_decision c []
          [{ evidence_ref_id := "ev1", ref_kind := "tool_output" }] (fun _ => 0) 0) =
      some (.admitted (deterministic_id "card"
        ["tactic", "repo", "default", "command succeeded."]) none) ∧
    (generate_candidate "ep1" "repo" "default" 0
        { evidence_ref_id := "ev1", ref_kind := "tool_output",
          excerpt_text := "Command succeeded. timeout after 30s" }).map (·.kind) =
      some "negative_result" ∧
    (generate_candidate "ep1" "repo" "default" 0
        { evidence_ref_id := "ev1", ref_kind := "tool_output",
          excerpt_text := "Command succeeded. timeout after 30s" }).map
        (fun c => candidate_decision c []
          [{ evidence_ref_id := "ev1", ref_kind := "tool_output" }] (fun _ => 0) 0) =
      some (.admitted (deterministic_id "card"
        ["negative_result", "repo", "default",
         "command succeeded. timeout after 30s"]) none) :=
  ⟨by decide, by decide, by decide, by decide⟩

/-! ## C5: ranges of the scoring components -/

/-- C5 (counterexample): the tactic utility component leaves `[0, 1]`: at
`wins = 1, losses = 0, reuse = 10` it equals `2`. -/
theorem utility_component_exceeds_unit_interval :
    utility_component "tactic" 1 0 10 = 2 ∧
    ¬(utility_component "tactic" 1 0 10 ≤ 1) := by
  constructor
  · show (if "tactic" = "tactic" then
        ((1 : ℚ) - (0 : ℚ)) / ((max 1 (1 + 0) : Nat) : ℚ) + min 1 ((10 : ℚ) / 10)
      else 0) = 2
    norm_num
  · show ¬(if "tactic" = "tactic" then
        ((1 : ℚ) - (0 : ℚ)) / ((max 1 (1 + 0) : Nat) : ℚ) + min 1 ((10 : ℚ) / 10)
      else 0) ≤ 1
    norm_num

/-- Squared norms are nonnegative. -/
theorem norm_sq_vec_nonneg (a : List ℚ) : 0 ≤ norm_sq_vec a := by
  unfold norm_sq_vec
  apply List.sum_nonneg
  intro x hx
  obtain ⟨y, _, rfl⟩ := List.mem_map.mp hx
  exact mul_self_nonneg y

/-- Cauchy-Schwarz for the embedded dot product. -/
theorem dot_vec_sq_le (a b : List ℚ) :
    dot_vec a b ^ 2 ≤ norm_sq_vec a * norm_sq_vec b := by
  induction a generalizing b with
  | nil =>
    simp [dot_vec, norm_sq_vec]
  | cons x xs ih =>
    cases b with
    | nil =>
      simp only [dot_vec, norm_sq_vec, List.zip_nil_right, List.map_nil, List.sum_nil]
      simp [dot_vec, norm_sq_vec]
    | cons y ys =>
      have hd : dot_vec (x :: xs) (y :: ys) = x * y + dot_vec xs ys := by
        simp [dot_vec, List.zip_cons_cons]
      have hna : norm_sq_vec (x :: xs) = x * x + norm_sq_vec xs := by
        simp [norm_sq_vec]
      have hnb : norm_sq_vec (y :: ys) = y * y + norm_sq_vec ys := by
        simp [norm_sq_vec]
      rw [hd, hna, hnb]
      have hX := norm_sq_vec_nonneg xs
      have hY := norm_sq_vec_nonneg ys
      have hIH := ih ys
      set d := dot_vec xs ys with hdd
      set X := norm_sq_vec xs with hXX
      set Y := norm_sq_vec ys with hYY
      rcases eq_or_lt_of_le hY with hY0 | hYpos
      · have hd0 : d ^ 2 ≤ 0 := by rw [← hY0] at hIH; simpa using hIH
        have : d = 0 := by nlinarith [sq_nonneg d]
        rw [this, ← hY0]
        nlinarith [mul_nonneg hX (sq_nonneg y), sq_nonneg (x * y)]
      · nlinarith [sq_nonneg (x * Y - y * d),
          mul_nonneg (add_nonneg (sq_nonneg y) (le_of_lt hYpos)) (sub_nonneg.mpr hIH),
          sq_nonneg (x * y)]

/-- Dot products of componentwise-nonnegative vectors are nonnegative. -/
theorem dot_vec_nonneg (a b : List ℚ) (ha : ∀ x ∈ a, 0 ≤ x) (hb : ∀ x ∈ b, 0 ≤ x) :
    0 ≤ dot_vec a b := by
  unfold dot_vec
  apply List.sum_nonneg
  intro x hx
  obtain ⟨⟨u, v⟩, hmem, rfl⟩ := List.mem_map.mp hx
  obtain ⟨hu, hv⟩ := List.of_mem_zip hmem
  exact mul_nonneg (ha u hu) (hb v hv)

/-- Jaccard similarity lies in `[0, 1]`. -/
theorem jaccard_similarity_mem_unit (a b : String) :
    0 ≤ jaccard_similarity a b ∧ jaccard_similarity a b ≤ 1 := by
  unfold jaccard_similarity
  by_cases h1 : (token_set a).isEmpty && (token_set b).isEmpty
  · simp [h1]
  · by_cases h2 : (token_set a).isEmpty || (token_set b).isEmpty
    · simp [h1, h2]
    · simp only [h1, h2, if_false, Bool.false_eq_true]
      have hta : ¬(token_set a).isEmpty := by
        intro hc; exact h2 (by simp [hc])
      set ta := token_set a with hta_def
      set tb := token_set b with htb_def
      set inter := (ta.filter (fun t => tb.contains t)).length with hinter
      set union := ((ta ++ tb).dedup).length with hunion
      have hsub : ta.filter (fun t => tb.contains t) ⊆ (ta ++ tb).dedup := by
        intro x hx
        have hx2 : x ∈ ta := List.mem_of_mem_filter hx
        exact List.mem_dedup.mpr (List.mem_append_left _ hx2)
      have hnodup : (ta.filter (fun t => tb.contains t)).Nodup :=
        List.Nodup.filter _ (List.nodup_dedup _)
      have hle : inter ≤ union :=
        List.Subperm.length_le (List.Nodup.subperm hnodup hsub)
      have hpos : 0 < union := by
        rcases List.exists_mem_of_ne_nil ta (by simpa [List.isEmpty_iff] using hta) with ⟨x, hx⟩
        have : x ∈ (ta ++ tb).dedup := List.mem_dedup.mpr (List.mem_append_left _ hx)
        exact List.length_pos.mpr (List.ne_nil_of_mem this)
      constructor
      · positivity
      · rw [div_le_one (by exact_mod_cast hpos)]
        exact_mod_cast hle

/-- C5 (amended): every scoring component of `retrieve_cards` except the
tactic utility lies in `[0, 1]` (the semantic component is stated via its
squared form, `0 ≤ dot` and `dot² ≤ ‖q‖²·‖emb‖²`, i.e. `0 ≤ semantic ≤ 1`);
the tactic utility component lies in `[-1, 2]`, and the bound `2` is
attained, so the claimed `[0, 1]` fails only for utility. -/
theorem retrieve_cards_component_ranges (a b : String) (q emb : List ℚ)
    (wins losses reuse updated_event_id max_event_id : Nat)
    (kind status mode dt ds ct cs : String)
    (hq : ∀ x ∈ q, 0 ≤ x) (hemb : ∀ x ∈ emb, 0 ≤ x)
    (hup : updated_event_id ≤ max_event_id) (hmax : 1 ≤ max_event_id) :
    (0 ≤ jaccard_similarity a b ∧ jaccard_similarity a b ≤ 1) ∧
    (0 ≤ dot_vec q emb ∧ dot_vec q emb ^ 2 ≤ norm_sq_vec q * norm_sq_vec emb) ∧
    (0 ≤ scope_score dt ds ct cs ∧ scope_score dt ds ct cs ≤ 1) ∧
    (0 ≤ kind_prior kind ∧ kind_prior kind ≤ 1) ∧
    (0 ≤ status_weight status mode ∧ status_weight status mode ≤ 1) ∧
    (0 ≤ recency_component updated_event_id max_event_id ∧
      recency_component updated_event_id max_event_id ≤ 1) ∧
    (-1 ≤ utility_component kind wins losses reuse ∧
      utility_component kind wins losses reuse ≤ 2) := by
  refine ⟨jaccard_similarity_mem_unit a b,
    ⟨dot_vec_nonneg q emb hq hemb, dot_vec_sq_le q emb⟩, ?_, ?_, ?_, ?_, ?_⟩
  · simp only [scope_score]; split_ifs <;> norm_num
  · unfold kind_prior; split_ifs <;> norm_num
  · unfold status_weight; split_ifs <;> norm_num
  · unfold recency_component
    have hmpos : (0 : ℚ) < (max_event_id : ℚ) := by exact_mod_cast hmax
    constructor
    · positivity
    · rw [div_le_one hmpos]; exact_mod_cast hup
  · unfold utility_component
    split_ifs with h
    · have hMpos : (0 : ℚ) < ((max 1 (wins + losses) : Nat) : ℚ) := by
        have : 1 ≤ max 1 (wins + losses) := le_max_left _ _
        exact_mod_cast this
      have hA1 : ((wins : ℚ) - (losses : ℚ)) / ((max 1 (wins + losses) : Nat) : ℚ) ≤ 1 := by
        rw [div_le_one hMpos]
        have h1 : (wins : ℚ) - (losses : ℚ) ≤ ((wins + losses : Nat) : ℚ) := by
          push_cast; linarith [Nat.cast_nonneg (α := ℚ) losses]
        have h2 : ((wins + losses : Nat) : ℚ) ≤ ((max 1 (wins + losses) : Nat) : ℚ) := by
          exact_mod_cast le_max_right 1 (wins + losses)
        linarith
      have hA2 : (-1 : ℚ) ≤ ((wins : ℚ) - (losses : ℚ)) / ((max 1 (wins + losses) : Nat) : ℚ) := by
        rw [le_div_iff₀ hMpos]
        have h1 : -(((wins + losses : Nat) : ℚ)) ≤ (wins : ℚ) - (losses : ℚ) := by
          push_cast; linarith [Nat.cast_nonneg (α := ℚ) wins]
        have h2 : ((wins + losses : Nat) : ℚ) ≤ ((max 1 (wins + losses) : Nat) : ℚ) := by
          exact_mod_cast le_max_right 1 (wins + losses)
        linarith
      have hB1 : min 1 ((reuse : ℚ) / 10) ≤ 1 := min_le_left _ _
      have hB2 : (0 : ℚ) ≤ min 1 ((reuse : ℚ) / 10) := by
        apply le_min
        · norm_num
        · positivity
      constructor <;> linarith
    · norm_num

/-! ## C1: idempotent append -/

/-- C1: when the idempotency key is already present, `append_event` returns
the existing event's identifiers with `inserted = false`, leaves the log
(hence the total event count) unchanged and does not invoke the reducer;
when the key is fresh, it inserts exactly one new event and returns
`inserted = true`. -/
theorem append_event_idempotency_contract (st : LogState)
    (episode_id event_type payload idempotency_key : String) (apply : Bool) :
    (∀ e, find_by_key st.events idempotency_key = some e →
      append_event st episode_id event_type payload idempotency_key apply =
        ({ event_id := e.event_id, episode_id := e.episode_id, seq_no := e.seq_no,
           inserted := false }, st)) ∧
    (find_by_key st.events idempotency_key = none →
      (append_event st episode_id event_type payload idempotency_key apply).1.inserted = true ∧
      (append_event st episode_id event_type payload idempotency_key apply).2.events.length =
        st.events.length + 1) := by
  constructor
  · intro e he
    unfold append_event
    rw [he]
  · intro he
    unfold append_event
    rw [he]
    simp

/-! ## C2: gap-free per-episode sequence numbers -/

/-- Folding `max` over `1..n` starting from 0 yields `n`. -/
theorem foldl_max_range' (n : Nat) : (List.range' 1 n).foldl max 0 = n := by
  induction n with
  | zero => rfl
  | succ m ih =>
    rw [List.range'_1_concat, List.foldl_append, ih]
    simp [Nat.max_eq_right (Nat.le_succ m)]
    omega

/-- In every reachable log state, each episode's `seq_no` column is exactly
`1..N` in order. -/
theorem reachable_seq_nos (st : LogState) (h : ReachableLog st) :
    ∀ ep, seq_nos st ep = List.range' 1 (seq_nos st ep).length := by
  induction h with
  | init => intro ep; rfl
  | step st' episode_id event_type payload idempotency_key apply _hr ih =>
    intro ep
    cases hfind : find_by_key st'.events idempotency_key with
    | some e =>
      unfold append_event
      rw [hfind]
      exact ih ep
    | none =>
      unfold append_event
      rw [hfind]
      simp only [seq_nos, List.filter_append, List.map_append]
      by_cases hep : episode_id = ep
      · subst hep
        have hfilter : List.filter (fun (e : MEvent) => e.episode_id == episode_id)
            [{ event_id := st'.next_event_id, episode_id := episode_id,
               seq_no := max_seq st'.events episode_id + 1, event_type := event_type,
               payload := payload, idempotency_key := idempotency_key }] =
            [{ event_id := st'.next_event_id, episode_id := episode_id,
               seq_no := max_seq st'.events episode_id + 1, event_type := event_type,
               payload := payload, idempotency_key := idempotency_key }] := by
          simp
        rw [hfilter]
        have hmax : max_seq st'.events episode_id = (seq_nos st' episode_id).length := by
          have hr := ih episode_id
          show (seq_nos st' episode_id).foldl max 0 = (seq_nos st' episode_id).length
          rw [hr, foldl_max_range', List.length_range']
        set N := (seq_nos st' episode_id).length with hN
        show seq_nos st' episode_id ++ [max_seq st'.events episode_id + 1] =
          List.range' 1 ((seq_nos st' episode_id ++ [max_seq st'.events episode_id + 1]).length)
        have hlen2 : (seq_nos st' episode_id ++ [max_seq st'.events episode_id + 1]).length
            = N + 1 := by
          rw [List.length_append, ← hN]; rfl
        rw [hlen2, List.range'_1_concat, hmax, ih episode_id]
        rw [← hN, Nat.add_comm 1 N]
      · have hfilter : List.filter (fun (e : MEvent) => e.episode_id == ep)
            [{ event_id := st'.next_event_id, episode_id := episode_id,
               seq_no := max_seq st'.events episode_id + 1, event_type := event_type,
               payload := payload, idempotency_key := idempotency_key }] = [] := by
          simp [hep]
        rw [hfilter]
        simpa [seq_nos] using ih ep

/-- C2: in every reachable log state, the `seq_no` values of an episode's
events are exactly `1..N` with no gaps, and a fresh append for that episode
is assigned `seq_no` equal to the episode's current maximum plus one, which
is the episode's event count plus one (so numbering starts at 1). -/
theorem append_event_seq_gapless (st : LogState) (h : ReachableLog st) (ep : String) :
    seq_nos st ep = List.range' 1 (seq_nos st ep).length ∧
    (∀ event_type payload idempotency_key apply,
      find_by_key st.events idempotency_key = none →
      (append_event st ep event_type payload idempotency_key apply).1.seq_no =
        max_seq st.events ep + 1 ∧
      max_seq st.events ep = (seq_nos st ep).length) := by
  refine ⟨reachable_seq_nos st h ep, ?_⟩
  intro event_type payload idempotency_key apply hfind
  constructor
  · unfold append_event
    rw [hfind]
  · unfold max_seq
    show (seq_nos st ep).foldl max 0 = (seq_nos st ep).length
    rw [reachable_seq_nos st h ep, foldl_max_range']
    simp [List.length_range']

/-! ## C3: the duplicate gate checks only the best match -/

/-- The cap / merge / admit stages never reject with
`duplicate_of_existing_card`. -/
theorem candidate_decision_caps_ne_duplicate (cand : Candidate) (cards : List CardRow)
    (abk : String → Nat) (total : Nat) :
    candidate_decision_caps cand cards abk total ≠ .rejected "duplicate_of_existing_card" := by
  unfold candidate_decision_caps
  split_ifs <;> try (intro h; injection h with h'; revert h'; decide)
  cases find_exact_merge_target cand cards <;> simp

set_option maxRecDepth 100000 in
/-- C3 (counterexample): `cex_cardB` is an active card of the candidate's
`(kind, scope_tier, scope_id)` with `lex ≥ 0.80` and `cos ≥ 0.92`, so the
claim's "exists some card" reading demands a
`duplicate_of_existing_card` rejection; but the code compares the thresholds
only against the single best average-score match (`cex_cardA`, which fails
the cosine threshold) and instead rejects with `novelty_below_threshold`. -/
theorem duplicate_gate_counterexample :
    cex_cardB.kind = cex_candidate.kind ∧
    cex_cardB.scope_tier = cex_candidate.scope_tier ∧
    cex_cardB.scope_id = cex_candidate.scope_id ∧
    cex_cardB.status = "active" ∧
    (4/5 ≤ jaccard_similarity cex_candidate.statement cex_cardB.statement ∧
      cosine_ge cex_candidate.statement cex_cardB.statement (23/25) = true) ∧
    candidate_decision cex_candidate [cex_cardA, cex_cardB] cex_evidence
      (fun _ => 0) 0 = .rejected "novelty_below_threshold" ∧
    candidate_decision cex_candidate [cex_cardA, cex_cardB] cex_evidence
      (fun _ => 0) 0 ≠ .rejected "duplicate_of_existing_card" := by
  refine ⟨by decide, by decide, by decide, by decide,
    ⟨by with_unfolding_all decide, by with_unfolding_all decide⟩,
    by with_unfolding_all decide, by with_unfolding_all decide⟩

/-- C3 (amended): a candidate that passed the evidence invariant is rejected
with `duplicate_of_existing_card` iff the *single best match* — the stored
same-`(kind, scope_tier, scope_id)` active/needs_recheck card with the
largest `(lex + cos) / 2` — satisfies `lex ≥ 0.80` and `cos ≥ 0.92`. -/
theorem duplicate_gate_best_match_iff (cand : Candidate) (cards : List CardRow)
    (evidence : List EvidenceKindRow) (abk : String → Nat) (total : Nat)
    (hev : (validate_evidence_invariant cand evidence).1 = true) :
    candidate_decision cand cards evidence abk total =
      .rejected "duplicate_of_existing_card" ↔
    (∃ b, find_best_similarity_match cand cards = some b ∧
      4/5 ≤ b.lex ∧ match_cos_ge b (23/25) = true) := by
  unfold candidate_decision
  rw [hev]
  simp only [Bool.not_true, Bool.false_eq_true, if_false]
  cases hbest : find_best_similarity_match cand cards with
  | none =>
    simp only [hbest]
    constructor
    · intro h; exact absurd h (candidate_decision_caps_ne_duplicate cand cards abk total)
    · rintro ⟨b, hb, -⟩; cases hb
  | some b =>
    by_cases hdup : 4/5 ≤ b.lex ∧ match_cos_ge b (23/25) = true
    · simp only [hbest, hdup, if_true]
      constructor
      · intro _; exact ⟨b, rfl, hdup⟩
      · intro _; rfl
    · simp only [hbest, hdup, if_false]
      constructor
      · intro h
        by_cases hnov : 13/20 ≤ b.lex ∨ match_cos_ge b (39/50) = true
        · rw [if_pos hnov] at h
          injection h with h'
          exact absurd h' (by decide)
        · rw [if_neg hnov] at h
          exact absurd h (candidate_decision_caps_ne_duplicate cand cards abk total)
      · rintro ⟨b', hb', hb'2⟩
        injection hb' with hb'
        subst hb'
        exact absurd hb'2 hdup

/-! ## C6: pack caps, membership and exposures -/

/-- Filtering by a stronger predicate yields at most as many elements. -/
theorem length_filter_le_of_imp (p q : α → Bool) (h : ∀ a, p a = true → q a = true)
    (l : List α) : (l.filter p).length ≤ (l.filter q).length := by
  induction l with
  | nil => simp
  | cons a l ih =>
    by_cases hp : p a = true
    · rw [List.filter_cons_of_pos hp, List.filter_cons_of_pos (h a hp)]
      simpa using ih
    · rw [List.filter_cons_of_neg hp]
      by_cases hq : q a = true
      · rw [List.filter_cons_of_pos hq]
        simp only [List.length_cons]
        omega
      · rw [List.filter_cons_of_neg hq]
        exact ih

/-- Every slot group produced by `group_for_kind` has capacity at least 1. -/
theorem one_le_slot_cap (kind : String) : 1 ≤ PACK_SLOT_CAPS (group_for_kind kind) := by
  unfold group_for_kind PACK_SLOT_CAPS
  split_ifs <;> simp_all

/-- `SelState.add` preserves the selection invariant when the counters are
strictly below the caps and the card id is fresh. -/
theorem PackInv.add (R : List RankedCard) (st : SelState) (c : RankedCard)
    (hinv : PackInv R st) (hc : c ∈ R)
    (htopic : st.topic_counts c.topic_key < PACK_TOPIC_CAP)
    (hslot : st.slot_counts (group_for_kind c.kind) <
      PACK_SLOT_CAPS (group_for_kind c.kind))
    (hfresh : ¬(st.selected.any (fun s => s.card_id == c.card_id) = true)) :
    PackInv R (st.add c) := by
  obtain ⟨htc, hsc, htb, hsb, hmem, hnd⟩ := hinv
  have hcount_topic : ∀ t,
      ((st.selected ++ [c]).filter (fun x => x.topic_key == t)).length =
      (st.selected.filter (fun x => x.topic_key == t)).length +
        (if t = c.topic_key then 1 else 0) := by
    intro t
    rw [List.filter_append, List.length_append]
    by_cases h : t = c.topic_key
    · simp [h]
    · have : (c.topic_key == t) = false := by
        simp only [beq_eq_false_iff_ne]
        exact fun hcontra => h hcontra.symm
      simp [this, h]
  have hcount_slot : ∀ g,
      ((st.selected ++ [c]).filter (fun x => group_for_kind x.kind == g)).length =
      (st.selected.filter (fun x => group_for_kind x.kind == g)).length +
        (if g = group_for_kind c.kind then 1 else 0) := by
    intro g
    rw [List.filter_append, List.length_append]
    by_cases h : g = group_for_kind c.kind
    · simp [h]
    · have : (group_for_kind c.kind == g) = false := by
        simp only [beq_eq_false_iff_ne]
        exact fun hcontra => h hcontra.symm
      simp [this, h]
  refine ⟨?_, ?_, ?_, ?_, ?_, ?_⟩
  · intro t
    show (if t = c.topic_key then st.topic_counts t + 1 else st.topic_counts t) =
      ((st.selected ++ [c]).filter (fun x => x.topic_key == t)).length
    rw [hcount_topic t, ← htc t]
    by_cases h : t = c.topic_key <;> simp [h]
  · intro g
    show (if g = group_for_kind c.kind then st.slot_counts g + 1 else st.slot_counts g) =
      ((st.selected ++ [c]).filter (fun x => group_for_kind x.kind == g)).length
    rw [hcount_slot g, ← hsc g]
    by_cases h : g = group_for_kind c.kind <;> simp [h]
  · intro t
    show ((st.selected ++ [c]).filter (fun x => x.topic_key == t)).length ≤ _
    rw [hcount_topic t]
    by_cases h : t = c.topic_key
    · subst h
      rw [if_pos rfl]
      have h1 := htc c.topic_key
      omega
    · simp only [h, if_false]
      have := htb t
      omega
  · intro g
    show ((st.selected ++ [c]).filter (fun x => group_for_kind x.kind == g)).length ≤ _
    rw [hcount_slot g]
    by_cases h : g = group_for_kind c.kind
    · subst h
      rw [if_pos rfl]
      have h1 := hsc (group_for_kind c.kind)
      omega
    · simp only [h, if_false]
      have := hsb g
      omega
  · intro x hx
    rcases List.mem_append.mp hx with h | h
    · exact hmem x h
    · rw [List.mem_singleton.mp h]; exact hc
  · show ((st.selected ++ [c]).map (·.card_id)).Nodup
    rw [List.map_append]
    simp only [List.map_cons, List.map_nil]
    rw [List.nodup_append]
    refine ⟨hnd, List.nodup_singleton _, ?_⟩
    intro a ha hb
    have ha' : a = c.card_id := List.mem_singleton.mp hb
    subst ha'
    obtain ⟨s, hs, hsid⟩ := List.mem_map.mp ha
    apply hfresh
    rw [List.any_eq_true]
    exact ⟨s, hs, by simp [hsid]⟩

/-- The main selection loop preserves the invariant. -/
theorem select_loop_inv (R : List RankedCard) :
    ∀ (l : List RankedCard) (st : SelState), (∀ c ∈ l, c ∈ R) → PackInv R st →
      PackInv R (select_loop l st)
  | [], st, _, hinv => hinv
  | c :: rest, st, hl, hinv => by
    unfold select_loop
    by_cases h1 : PACK_TOTAL_CAP ≤ st.selected.length
    · rw [if_pos h1]; exact hinv
    rw [if_neg h1]
    by_cases h2 : st.selected.any (fun s => s.card_id == c.card_id) = true
    · rw [if_pos h2]
      exact select_loop_inv R rest st (fun x hx => hl x (List.mem_cons_of_mem _ hx)) hinv
    rw [if_neg h2]
    by_cases h3 : PACK_TOPIC_CAP ≤ st.topic_counts c.topic_key
    · rw [if_pos h3]
      exact select_loop_inv R rest st (fun x hx => hl x (List.mem_cons_of_mem _ hx)) hinv
    rw [if_neg h3]
    by_cases h4 : PACK_SLOT_CAPS (group_for_kind c.kind) ≤
        st.slot_counts (group_for_kind c.kind)
    · rw [if_pos h4]
      exact select_loop_inv R rest st (fun x hx => hl x (List.mem_cons_of_mem _ hx)) hinv
    rw [if_neg h4]
    exact select_loop_inv R rest (st.add c)
      (fun x hx => hl x (List.mem_cons_of_mem _ hx))
      (PackInv.add R st c hinv (hl c (List.mem_cons_self _ _))
        (Nat.lt_of_not_le h3) (Nat.lt_of_not_le h4) h2)

/-- The empty selection state satisfies the invariant. -/
theorem PackInv.init (R : List RankedCard) : PackInv R SelState.init := by
  refine ⟨fun t => rfl, fun g => rfl, ?_, ?_, ?_, ?_⟩
  · intro t; simp [SelState.init, PACK_TOPIC_CAP]
  · intro g; simp [SelState.init]
  · intro c hc; cases hc
  · simp [SelState.init]

/-- The failure pre-selection loop preserves the invariant from the empty
state. -/
theorem preselect_inv (R : List RankedCard) :
    ∀ (l : List RankedCard), (∀ c ∈ l, c ∈ R) →
      PackInv R (preselect_failure l SelState.init)
  | [], _ => PackInv.init R
  | c :: rest, hl => by
    unfold preselect_failure
    by_cases h : (c.kind == "negative_result" &&
        decide (SelState.init.topic_counts c.topic_key < PACK_TOPIC_CAP) &&
        decide (SelState.init.slot_counts "negative_result" <
          PACK_SLOT_CAPS "negative_result")) = true
    · rw [if_pos h]
      have hkind : c.kind = "negative_result" := by
        simp only [Bool.and_eq_true, beq_iff_eq] at h
        exact h.1.1
      apply PackInv.add R SelState.init c (PackInv.init R) (hl c (List.mem_cons_self _ _))
      · simp [SelState.init, PACK_TOPIC_CAP]
      · show SelState.init.slot_counts _ < _
        have : (0 : Nat) < PACK_SLOT_CAPS (group_for_kind c.kind) :=
          Nat.lt_of_lt_of_le Nat.zero_lt_one (one_le_slot_cap c.kind)
        exact this
      · simp [SelState.init]
    · rw [if_neg h]
      exact preselect_inv R rest (fun x hx => hl x (List.mem_cons_of_mem _ hx))

/-- The final selection of `pack_select` satisfies the invariant. -/
theorem pack_select_inv (ranked : List RankedCard) (flag : Bool) :
    PackInv ranked (select_loop ranked
      (if flag then preselect_failure ranked SelState.init else SelState.init)) := by
  apply select_loop_inv ranked ranked _ (fun c hc => hc)
  by_cases h : flag
  · rw [if_pos h]; exact preselect_inv ranked ranked (fun c hc => hc)
  · rw [if_neg h]; exact PackInv.init ranked

/-- Filter-count of a take-prefix is bounded by the full filter-count. -/
theorem length_filter_take_le (p : α → Bool) (l : List α) (n : Nat) :
    ((l.take n).filter p).length ≤ (l.filter p).length :=
  List.Sublist.length_le (List.Sublist.filter p (List.take_sublist n l))

/-- C6: every pack built from a ranked candidate list selects at most 8
cards; at most 3 preference/constraint/commitment cards combined, at most 2
negative_result, at most 2 tactic, at most 3 fact; at most 2 cards per
topic; every selected card comes from the ranked list; selected card ids are
distinct; and exactly one exposure is emitted per selected card, at rank
`index + 1`. -/
theorem build_pack_invariants (ranked : List RankedCard) (flag : Bool)
    (pack_id channel : String) :
    (pack_select ranked flag).length ≤ PACK_TOTAL_CAP ∧
    ((pack_select ranked flag).filter (fun c => c.kind == "preference" ||
      c.kind == "constraint" || c.kind == "commitment")).length ≤ 3 ∧
    ((pack_select ranked flag).filter (fun c => c.kind == "negative_result")).length ≤ 2 ∧
    ((pack_select ranked flag).filter (fun c => c.kind == "tactic")).length ≤ 2 ∧
    ((pack_select ranked flag).filter (fun c => c.kind == "fact")).length ≤ 3 ∧
    (∀ t, ((pack_select ranked flag).filter
      (fun c => c.topic_key == t)).length ≤ PACK_TOPIC_CAP) ∧
    (∀ c ∈ pack_select ranked flag, c ∈ ranked) ∧
    ((pack_select ranked flag).map (·.card_id)).Nodup ∧
    (pack_exposures pack_id channel (pack_select ranked flag)).length =
      (pack_select ranked flag).length ∧
    (∀ i, (hi : i < (pack_exposures pack_id channel (pack_select ranked flag)).length) →
      (hs : i < (pack_select ranked flag).length) →
      ((pack_exposures pack_id channel (pack_select ranked flag)).get ⟨i, hi⟩).card_id =
        ((pack_select ranked flag).get ⟨i, hs⟩).card_id ∧
      ((pack_exposures pack_id channel (pack_select ranked flag)).get
        ⟨i, hi⟩).rank_position = i + 1) := by
  obtain ⟨-, hsc, htb, hsb, hmem, hnd⟩ := pack_select_inv ranked flag
  have hps : pack_select ranked flag = (select_loop ranked
      (if flag then preselect_failure ranked SelState.init else SelState.init)).selected.take
        PACK_TOTAL_CAP := rfl
  set SEL := (select_loop ranked
    (if flag then preselect_failure ranked SelState.init else SelState.init)).selected with hSEL
  have hslot_take : ∀ (g : String) (p : RankedCard → Bool),
      (∀ a, p a = true → (group_for_kind a.kind == g) = true) →
      ((pack_select ranked flag).filter p).length ≤ PACK_SLOT_CAPS g := by
    intro g p himp
    rw [hps]
    calc ((SEL.take PACK_TOTAL_CAP).filter p).length
        ≤ ((SEL.take PACK_TOTAL_CAP).filter
            (fun c => group_for_kind c.kind == g)).length :=
          length_filter_le_of_imp _ _ himp _
      _ ≤ (SEL.filter (fun c => group_for_kind c.kind == g)).length :=
          length_filter_take_le _ _ _
      _ ≤ PACK_SLOT_CAPS g := hsb g
  refine ⟨?_, ?_, ?_, ?_, ?_, ?_, ?_, ?_, ?_, ?_⟩
  · rw [hps, List.length_take]
    exact min_le_left _ _
  · have := hslot_take "constraints_commitments"
      (fun c => c.kind == "preference" || c.kind == "constraint" || c.kind == "commitment")
      (by
        intro a ha
        simp only [Bool.or_eq_true, beq_iff_eq] at ha
        simp only [beq_iff_eq, group_for_kind]
        rcases ha with (h | h) | h <;> simp [h])
    simpa using this
  · have := hslot_take "negative_result" (fun c => c.kind == "negative_result")
      (by
        intro a ha
        simp only [beq_iff_eq] at ha
        simp only [beq_iff_eq, group_for_kind]
        simp [ha])
    simpa using this
  · have := hslot_take "tactic" (fun c => c.kind == "tactic")
      (by
        intro a ha
        simp only [beq_iff_eq] at ha
        simp only [beq_iff_eq, group_for_kind]
        simp [ha])
    simpa using this
  · have := hslot_take "fact" (fun c => c.kind == "fact")
      (by
        intro a ha
        simp only [beq_iff_eq] at ha
        simp only [beq_iff_eq, group_for_kind]
        simp [ha])
    simpa using this
  · intro t
    rw [hps]
    calc ((SEL.take PACK_TOTAL_CAP).filter (fun c => c.topic_key == t)).length
        ≤ (SEL.filter (fun c => c.topic_key == t)).length := length_filter_take_le _ _ _
      _ ≤ PACK_TOPIC_CAP := htb t
  · intro c hc
    rw [hps] at hc
    exact hmem c (List.mem_of_mem_take hc)
  · rw [hps]
    exact List.Nodup.sublist (List.Sublist.map _ (List.take_sublist _ _)) hnd
  · simp [pack_exposures]
  · intro i hi hs
    constructor
    · rw [List.get_eq_getElem, List.get_eq_getElem]
      simp [pack_exposures, List.enum]
    · rw [List.get_eq_getElem]
      simp [pack_exposures, List.enum]

/-! ## C7: dispute weights and the threshold transition -/

/-- String append is left-cancellative. -/
theorem string_append_right_inj (s a b : String) (h : s ++ a = s ++ b) : a = b := by
  have h2 : (s ++ a).data = (s ++ b).data := by rw [h]
  rw [String.data_append, String.data_append] at h2
  have h3 := List.append_cancel_left h2
  exact congrArg String.mk h3

/-- The modelled `deterministic_id` is injective in its second part when the
first part is fixed. -/
theorem deterministic_id_pair_inj {p c e e' : String}
    (h : deterministic_id p [c, e] = deterministic_id p [c, e']) : e = e' := by
  have hx : deterministic_id p [c, e] = p ++ "_" ++ (c ++ "|" ++ e) := rfl
  have hy : deterministic_id p [c, e'] = p ++ "_" ++ (c ++ "|" ++ e') := rfl
  rw [hx, hy] at h
  have h2 := string_append_right_inj (p ++ "_") _ _ h
  exact string_append_right_inj (c ++ "|") e e' h2

/-- A `dispute_recorded` idempotency key never coincides with a
`card_status_changed` one (they start with different characters). -/
theorem dispute_key1_ne_key2 (c e c' : String) (t : ℚ) :
    dispute_key1 c e ≠ dispute_key2 c' t := by
  intro h
  have h1 : (dispute_key1 c e).data.head? = some 'd' := rfl
  have h2 : (dispute_key2 c' t).data.head? = some 'c' := by
    show ((("card_status_changed:" ++ c' ++ ":needs_recheck:" ++
      toString t.num ++ ":" ++ toString t.den)).data).head? = some 'c'
    rfl
  rw [h] at h1
  rw [h2] at h1
  exact absurd h1 (by decide)

/-- Dispute weights are nonnegative. -/
theorem DISPUTE_WEIGHTS_nonneg (k : String) : 0 ≤ DISPUTE_WEIGHTS k := by
  unfold DISPUTE_WEIGHTS
  split_ifs <;> norm_num

/-- Dispute thresholds are positive. -/
theorem DISPUTE_THRESHOLDS_pos (t : String) : 0 < DISPUTE_THRESHOLDS t := by
  unfold DISPUTE_THRESHOLDS
  split_ifs <;> norm_num

/-- Appending a dispute row of the card adds its weight to the card's mass. -/
theorem dispute_mass_append (ds : List DisputeRow) (d : DisputeRow) (card : String)
    (h : d.card_id = card) :
    dispute_mass (ds ++ [d]) card = dispute_mass ds card + d.weight := by
  unfold dispute_mass
  rw [List.filter_append]
  have : List.filter (fun x => x.card_id == card) [d] = [d] := by simp [h]
  rw [this, List.map_append, List.sum_append]
  simp

/-- The card-status update of the reducer commutes with the card lookup. -/
theorem find?_update_cards (cards : List CardRow) (card : String) (n : Nat) :
    (cards.map (fun c => if c.card_id == card then
        { c with status := "needs_recheck", updated_event_id := n } else c)).find?
      (fun c => c.card_id == card) =
    (cards.find? (fun c => c.card_id == card)).map (fun c =>
      { c with status := "needs_recheck", updated_event_id := n }) := by
  induction cards with
  | nil => rfl
  | cons c0 rest ih =>
    by_cases h : (c0.card_id == card) = true
    · rw [List.map_cons, if_pos h]
      have h' : (({ c0 with status := "needs_recheck", updated_event_id := n } :
        CardRow).card_id == card) = true := h
      simp [List.find?, h, h']
    · rw [List.map_cons, if_neg h]
      simpa [List.find?, h] using ih

/-- A present idempotency key stays present when the log grows. -/
theorem find_by_key_mono (events l2 : List MEvent) (k : String)
    (h : find_by_key events k ≠ none) : find_by_key (events ++ l2) k ≠ none := by
  unfold find_by_key at *
  rw [List.find?_append]
  cases hx : events.find? (fun e => e.idempotency_key == k) with
  | none => exact absurd hx h
  | some v => simp [hx]

/-- Appending an event with a fresh key makes that key found. -/
theorem find_by_key_append_self (events : List MEvent) (ev1 : MEvent)
    (h : find_by_key events ev1.idempotency_key = none) :
    find_by_key (events ++ [ev1]) ev1.idempotency_key = some ev1 := by
  unfold find_by_key at *
  rw [List.find?_append, h]
  simp [List.find?]

/-- Appending an event with a different key keeps a key absent. -/
theorem find_by_key_append_ne (events : List MEvent) (ev1 : MEvent) (k : String)
    (h : find_by_key events k = none) (hne : ev1.idempotency_key ≠ k) :
    find_by_key (events ++ [ev1]) k = none := by
  unfold find_by_key at *
  rw [List.find?_append, h]
  have hb : (ev1.idempotency_key == k) = false := beq_eq_false_iff_ne.mpr hne
  simp [List.find?, hb]

/-- One `record_dispute` call preserves the dispute invariant. -/
theorem record_dispute_step_inv (ev : List EvidenceKindRow) (card tier ep e : String)
    (st : EngineState) (hinv : DisputeInv ev card tier st) :
    DisputeInv ev card tier
      (match record_dispute st ep card e with
       | .ok x => x.2
       | .error _ => st) := by
  obtain ⟨hI1, hI2, cF, hfindc, hscope, hbranch⟩ := hinv
  unfold record_dispute
  rw [hI1]
  cases hre : ev.find? (fun r => r.evidence_ref_id == e) with
  | none => exact ⟨hI1, hI2, cF, hfindc, hscope, hbranch⟩
  | some ref =>
    have href : ref ∈ ev ∧ ref.evidence_ref_id = e := by
      refine ⟨List.mem_of_find?_eq_some hre, ?_⟩
      have := List.find?_some hre
      simpa using this
    simp only [append_event]
    cases hk1 : find_by_key st.log.events (dispute_key1 card e) with
    | some e0 =>
      simp only [Bool.false_eq_true, if_false]
      rw [hfindc]
      simp only []
      rw [hscope]
      rcases hbranch with ⟨hst, hcnt, hmass, hk2⟩ | ⟨hst, hcnt, hmass⟩
      · rw [if_neg (by
          rintro ⟨h1, -⟩
          exact absurd h1 (not_le.mpr hmass))]
        exact ⟨rfl, hI2, cF, hfindc, hscope, Or.inl ⟨hst, hcnt, hmass, hk2⟩⟩
      · rw [if_neg (by
          rintro ⟨-, h2⟩
          rw [hst] at h2
          exact absurd h2 (by decide))]
        exact ⟨rfl, hI2, cF, hfindc, hscope, Or.inr ⟨hst, hcnt, hmass⟩⟩
    | none =>
      have hany : (st.disputes.any (fun r =>
          r.dispute_id == deterministic_id "disp" [card, e])) = false := by
        rw [Bool.eq_false_iff]
        intro hcontra
        rw [List.any_eq_true] at hcontra
        obtain ⟨d, hd, hbeq⟩ := hcontra
        rw [beq_iff_eq] at hbeq
        obtain ⟨-, hid, -, hkey⟩ := hI2 d hd
        rw [hid] at hbeq
        have heq := deterministic_id_pair_inj hbeq.symm
        rw [← heq] at hkey
        exact hkey hk1
      have hup : upsert_dispute st.disputes
          ⟨deterministic_id "disp" [card, e], card, e, DISPUTE_WEIGHTS ref.ref_kind,
            st.log.next_event_id⟩ = st.disputes ++
          [⟨deterministic_id "disp" [card, e], card, e, DISPUTE_WEIGHTS ref.ref_kind,
            st.log.next_event_id⟩] := by
        simp [upsert_dispute, hany]
      simp only [if_true, eq_self_iff_true]
      rw [hup, hfindc]
      simp only []
      rw [hscope]
      have hI2' : ∀ d ∈ st.disputes ++
          [(⟨deterministic_id "disp" [card, e], card, e, DISPUTE_WEIGHTS ref.ref_kind,
            st.log.next_event_id⟩ : DisputeRow)], d.card_id = card ∧
          d.dispute_id = deterministic_id "disp" [card, d.evidence_ref_id] ∧
          (∃ r, r ∈ ev ∧ r.evidence_ref_id = d.evidence_ref_id ∧
            d.weight = DISPUTE_WEIGHTS r.ref_kind) ∧
          find_by_key (st.log.events ++
            [{ event_id := st.log.next_event_id, episode_id := ep,
               seq_no := max_seq st.log.events ep + 1,
               event_type := "dispute_recorded",
               payload := String.intercalate "|" ["dispute_recorded",
                 deterministic_id "disp" [card, e], card, e],
               idempotency_key := dispute_key1 card e }])
            (dispute_key1 card d.evidence_ref_id) ≠ none := by
        intro d hd
        rcases List.mem_append.mp hd with hold | hnew
        · obtain ⟨h1, h2, h3, h4⟩ := hI2 d hold
          refine ⟨h1, h2, h3, ?_⟩
          exact find_by_key_mono _ _ _ h4
        · have hd' := List.mem_singleton.mp hnew
          subst hd'
          refine ⟨rfl, rfl, ⟨ref, href.1, href.2, rfl⟩, ?_⟩
          have := find_by_key_append_self st.log.events
            { event_id := st.log.next_event_id, episode_id := ep,
              seq_no := max_seq st.log.events ep + 1,
              event_type := "dispute_recorded",
              payload := String.intercalate "|" ["dispute_recorded",
                deterministic_id "disp" [card, e], card, e],
              idempotency_key := dispute_key1 card e } hk1
          simp only [this]
          intro hc
          cases hc
      have hI2'' : ∀ l2 d, d ∈ st.disputes ++
          [(⟨deterministic_id "disp" [card, e], card, e, DISPUTE_WEIGHTS ref.ref_kind,
            st.log.next_event_id⟩ : DisputeRow)] → d.card_id = card ∧
          d.dispute_id = deterministic_id "disp" [card, d.evidence_ref_id] ∧
          (∃ r, r ∈ ev ∧ r.evidence_ref_id = d.evidence_ref_id ∧
            d.weight = DISPUTE_WEIGHTS r.ref_kind) ∧
          find_by_key ((st.log.events ++
            [{ event_id := st.log.next_event_id, episode_id := ep,
               seq_no := max_seq st.log.events ep + 1,
               event_type := "dispute_recorded",
               payload := String.intercalate "|" ["dispute_recorded",
                 deterministic_id "disp" [card, e], card, e],
               idempotency_key := dispute_key1 card e }]) ++ l2)
            (dispute_key1 card d.evidence_ref_id) ≠ none := by
        intro l2 d hd
        obtain ⟨h1, h2, h3, h4⟩ := hI2' d hd
        exact ⟨h1, h2, h3, find_by_key_mono _ _ _ h4⟩
      rcases hbranch with ⟨hst, hcnt, hmass, hk2⟩ | ⟨hst, hcnt, hmass⟩
      · -- card is active: the new mass may or may not cross the threshold
        have hmass_new : dispute_mass (st.disputes ++
            [(⟨deterministic_id "disp" [card, e], card, e,
              DISPUTE_WEIGHTS ref.ref_kind, st.log.next_event_id⟩ : DisputeRow)]) card =
            dispute_mass st.disputes card + DISPUTE_WEIGHTS ref.ref_kind :=
          dispute_mass_append _ _ _ rfl
        have hcnt0 : List.filter (fun evt => evt.event_type == "card_status_changed" &&
            evt.payload == status_change_payload card "active" "needs_recheck"
              "dispute_threshold_exceeded") st.log.events = [] := by
          have := hcnt
          unfold dispute_status_events at this
          exact List.length_eq_zero.mp this
        by_cases hcross : DISPUTE_THRESHOLDS tier ≤ dispute_mass (st.disputes ++
            [(⟨deterministic_id "disp" [card, e], card, e,
              DISPUTE_WEIGHTS ref.ref_kind, st.log.next_event_id⟩ : DisputeRow)]) card
        · rw [if_pos ⟨hcross, hst⟩]
          simp only [append_event]
          rw [find_by_key_append_ne st.log.events _ _ hk2
            (dispute_key1_ne_key2 card e card (DISPUTE_THRESHOLDS tier))]
          simp only [if_true, eq_self_iff_true]
          have hfind2 := find?_update_cards st.cards card (st.log.next_event_id + 1)
          rw [hfindc] at hfind2
          refine ⟨rfl, hI2'' _, _, hfind2, hscope, Or.inr ⟨rfl, ?_, ?_⟩⟩
          · unfold dispute_status_events
            simp only [List.filter_append, hcnt0, List.length_append]
            simp [status_change_payload]
          · exact hcross
        · rw [if_neg (by
            rintro ⟨h1, -⟩
            exact hcross h1)]
          refine ⟨rfl, hI2', cF, hfindc, hscope, Or.inl ⟨hst, ?_, not_le.mp hcross, ?_⟩⟩
          · unfold dispute_status_events
            simp only [List.filter_append, hcnt0]
            simp
          · exact find_by_key_append_ne st.log.events _ _ hk2
              (dispute_key1_ne_key2 card e card (DISPUTE_THRESHOLDS tier))
      · -- card already needs_recheck: no further transition
        rw [if_neg (by
          rintro ⟨-, h2⟩
          rw [hst] at h2
          exact absurd h2 (by decide))]
        have hcnt1 : (List.filter (fun evt => evt.event_type == "card_status_changed" &&
            evt.payload == status_change_payload card "active" "needs_recheck"
              "dispute_threshold_exceeded") st.log.events).length = 1 := by
          have := hcnt
          unfold dispute_status_events at this
          exact this
        refine ⟨rfl, hI2', cF, hfindc, hscope, Or.inr ⟨hst, ?_, ?_⟩⟩
        · unfold dispute_status_events
          simp only [List.filter_append, List.length_append, hcnt1]
          simp
        · rw [dispute_mass_append _ _ _ rfl]
          have := DISPUTE_WEIGHTS_nonneg ref.ref_kind
          linarith

/-- Any sequence of `record_dispute` calls preserves the dispute invariant. -/
theorem run_disputes_inv (ev : List EvidenceKindRow) (card tier ep : String) :
    ∀ (refs : List String) (st : EngineState), DisputeInv ev card tier st →
      DisputeInv ev card tier (run_disputes st ep card refs)
  | [], _, hinv => hinv
  | e :: rest, st, hinv => by
    have h1 := record_dispute_step_inv ev card tier ep e st hinv
    unfold run_disputes
    simp only [List.foldl_cons]
    cases hrd : record_dispute st ep card e with
    | ok out =>
      obtain ⟨r, s2⟩ := out
      rw [hrd] at h1
      simp only [] at h1
      simp only []
      exact run_disputes_inv ev card tier ep rest s2 h1
    | error msg =>
      rw [hrd] at h1
      simp only [] at h1
      simp only []
      exact run_disputes_inv ev card tier ep rest st h1

/-- C7: starting from a store whose log and dispute table are empty, for any
sequence of disputes against an active card each recorded dispute carries
the weight of its evidence `ref_kind`; exactly one `card_status_changed`
event from `active` to `needs_recheck` with reason
`dispute_threshold_exceeded` is emitted precisely when the summed dispute
mass reaches the scope-tier threshold, and the card's status tracks the
crossing; below threshold the status is unchanged. -/
theorem record_dispute_threshold_contract (cards : List CardRow)
    (ev : List EvidenceKindRow) (episode_id card_id : String) (refs : List String)
    (c0 : CardRow)
    (hfind : cards.find? (fun c => c.card_id == card_id) = some c0)
    (hactive : c0.status = "active") :
    (∀ d ∈ (run_disputes ⟨LogState.init, cards, [], ev⟩ episode_id card_id
        refs).disputes,
      d.card_id = card_id ∧ ∃ r, r ∈ ev ∧ r.evidence_ref_id = d.evidence_ref_id ∧
        d.weight = DISPUTE_WEIGHTS r.ref_kind) ∧
    ((dispute_status_events (run_disputes ⟨LogState.init, cards, [], ev⟩ episode_id
        card_id refs) card_id).length =
      if DISPUTE_THRESHOLDS c0.scope_tier ≤
          dispute_mass (run_disputes ⟨LogState.init, cards, [], ev⟩ episode_id card_id
            refs).disputes card_id then 1 else 0) ∧
    (∃ cF, (run_disputes ⟨LogState.init, cards, [], ev⟩ episode_id card_id
        refs).cards.find? (fun c => c.card_id == card_id) = some cF ∧
      cF.status = (if DISPUTE_THRESHOLDS c0.scope_tier ≤
          dispute_mass (run_disputes ⟨LogState.init, cards, [], ev⟩ episode_id card_id
            refs).disputes card_id then "needs_recheck" else "active")) := by
  have hinv0 : DisputeInv ev card_id c0.scope_tier ⟨LogState.init, cards, [], ev⟩ := by
    refine ⟨rfl, ?_, c0, hfind, rfl, Or.inl ⟨hactive, rfl, ?_, rfl⟩⟩
    · intro d hd
      cases hd
    · show dispute_mass [] card_id < DISPUTE_THRESHOLDS c0.scope_tier
      have : dispute_mass [] card_id = 0 := rfl
      rw [this]
      exact DISPUTE_THRESHOLDS_pos c0.scope_tier
  have hinvF := run_disputes_inv ev card_id c0.scope_tier episode_id refs _ hinv0
  obtain ⟨hI1, hI2, cF, hfindF, hscope, hbranch⟩ := hinvF
  refine ⟨?_, ?_, ?_⟩
  · intro d hd
    obtain ⟨h1, -, h3, -⟩ := hI2 d hd
    exact ⟨h1, h3⟩
  · rcases hbranch with ⟨-, hcnt, hmass, -⟩ | ⟨-, hcnt, hmass⟩
    · rw [if_neg (not_le.mpr hmass)]
      exact hcnt
    · rw [if_pos hmass]
      exact hcnt
  · rcases hbranch with ⟨hst, -, hmass, -⟩ | ⟨hst, -, hmass⟩
    · rw [if_neg (not_le.mpr hmass)]
      exact ⟨cF, hfindF, hst⟩
    · rw [if_pos hmass]
      exact ⟨cF, hfindF, hst⟩

/-- Witness for C7: in the spec scenario (repo-tier active card, disputes of
weights 1.0, 0.7, 1.0) the contract holds with both hypotheses discharged
concretely. -/
theorem record_dispute_threshold_contract_witness :
    ([c7_card].find? (fun c => c.card_id == "card_t") = some c7_card) ∧
    c7_card.status = "active" ∧
    ((∀ d ∈ (run_disputes ⟨LogState.init, [c7_card], [], c7_evidence⟩ "ep1" "card_t"
        c7_refs).disputes,
      d.card_id = "card_t" ∧ ∃ r, r ∈ c7_evidence ∧
        r.evidence_ref_id = d.evidence_ref_id ∧
        d.weight = DISPUTE_WEIGHTS r.ref_kind) ∧
    ((dispute_status_events (run_disputes ⟨LogState.init, [c7_card], [], c7_evidence⟩
        "ep1" "card_t" c7_refs) "card_t").length =
      if DISPUTE_THRESHOLDS c7_card.scope_tier ≤
          dispute_mass (run_disputes ⟨LogState.init, [c7_card], [], c7_evidence⟩ "ep1"
            "card_t" c7_refs).disputes "card_t" then 1 else 0) ∧
    (∃ cF, (run_disputes ⟨LogState.init, [c7_card], [], c7_evidence⟩ "ep1" "card_t"
        c7_refs).cards.find? (fun c => c.card_id == "card_t") = some cF ∧
      cF.status = (if DISPUTE_THRESHOLDS c7_card.scope_tier ≤
          dispute_mass (run_disputes ⟨LogState.init, [c7_card], [], c7_evidence⟩ "ep1"
            "card_t" c7_refs).disputes "card_t" then "needs_recheck" else "active"))) :=
  ⟨rfl, rfl,
    record_dispute_threshold_contract [c7_card] c7_evidence "ep1" "card_t" c7_refs
      c7_card rfl rfl⟩

/-! ## C8: utility attribution -/

/-- The credit fold adds, per card, one win per credited exposure of that
card when the episode has a success signal, and one loss per credited
exposure when it has a failure signal. -/
theorem credit_foldl (success failure : Bool) :
    ∀ (l : List UtilExposureRow) (stats : String → Nat × Nat) (c : String),
      List.foldl (fun st e => fun x =>
        if x = e.card_id then
          ((st x).1 + (if success then 1 else 0),
           (st x).2 + (if failure then 1 else 0))
        else st x) stats l c =
      ((stats c).1 + (if success then (l.filter (fun e => e.card_id == c)).length else 0),
       (stats c).2 + (if failure then (l.filter (fun e => e.card_id == c)).length else 0))
  | [], stats, c => by simp
  | e :: l, stats, c => by
    rw [List.foldl_cons, credit_foldl success failure l _ c]
    by_cases h : c = e.card_id
    · rw [List.filter_cons_of_pos (by simp [h])]
      simp only [if_pos h, List.length_cons]
      cases success <;> cases failure <;> simp <;> omega
    · rw [List.filter_cons_of_neg (by simp [beq_iff_eq]; exact fun hh => h hh.symm)]
      simp only [if_neg h]

/-- C8: for an episode with an anchored outcome and a terminal outcome, the
credited exposures are exactly the first two auto_pack tactic exposures
preceding the earliest terminal outcome in
`(rank_position asc, score_total desc, card_id asc)` order — at most two —
and each card's wins grow by its number of credited exposures exactly when
the episode has a success signal, its losses exactly when it has a failure
signal; any card with no credited exposure (such as a third-ranked exposed
tactic) is unchanged. -/
theorem utility_attribution_top_two (outs : List OutcomeRow)
    (exps : List UtilExposureRow) (stats : String → Nat × Nat) (ft : OutcomeRow)
    (hanch : anchored_present outs = true)
    (hft : first_terminal outs = some ft) :
    eligible_exposures outs exps =
      (sort_by exposure_order_le (exps.filter (fun e =>
        e.channel == "auto_pack" && e.card_kind == "tactic" &&
        decide (e.seq_no < ft.seq_no)))).take 2 ∧
    (eligible_exposures outs exps).length ≤ 2 ∧
    ∀ c, process_episode_outcomes outs exps stats c =
      ((stats c).1 + (if success_signal outs then
          ((eligible_exposures outs exps).filter (fun e => e.card_id == c)).length
        else 0),
       (stats c).2 + (if failure_signal outs then
          ((eligible_exposures outs exps).filter (fun e => e.card_id == c)).length
        else 0)) := by
  have helig : eligible_exposures outs exps =
      (sort_by exposure_order_le (exps.filter (fun e =>
        e.channel == "auto_pack" && e.card_kind == "tactic" &&
        decide (e.seq_no < ft.seq_no)))).take 2 := by
    unfold eligible_exposures
    rw [hft, hanch]
    simp
  refine ⟨helig, ?_, ?_⟩
  · rw [helig]
    exact List.length_take_le 2 _
  · intro c
    exact credit_foldl (success_signal outs) (failure_signal outs)
      (eligible_exposures outs exps) stats c

/-- Witness for C8: the three-tactic scenario, with the anchored and
terminal-outcome hypotheses discharged concretely. -/
theorem utility_attribution_top_two_witness :
    anchored_present c8_outs = true ∧
    first_terminal c8_outs = some c8_ft ∧
    (eligible_exposures c8_outs c8_exps =
      (sort_by exposure_order_le (c8_exps.filter (fun e =>
        e.channel == "auto_pack" && e.card_kind == "tactic" &&
        decide (e.seq_no < c8_ft.seq_no)))).take 2 ∧
    (eligible_exposures c8_outs c8_exps).length ≤ 2 ∧
    ∀ c, process_episode_outcomes c8_outs c8_exps (fun _ => (0, 0)) c =
      (((fun (_ : String) => ((0 : Nat), (0 : Nat))) c).1 +
          (if success_signal c8_outs then
            ((eligible_exposures c8_outs c8_exps).filter
              (fun e => e.card_id == c)).length
          else 0),
       ((fun (_ : String) => ((0 : Nat), (0 : Nat))) c).2 +
          (if failure_signal c8_outs then
            ((eligible_exposures c8_outs c8_exps).filter
              (fun e => e.card_id == c)).length
          else 0))) :=
  ⟨rfl, rfl,
    utility_attribution_top_two c8_outs c8_exps (fun _ => (0, 0)) c8_ft rfl rfl⟩

/-! ## C9: `record_episode` idempotency -/

/-- `append_event` with an already-present idempotency key leaves the log
unchanged. -/
theorem append_event_noop (st : LogState) (ep t pl k : String) (b : Bool)
    (h : find_by_key st.events k ≠ none) :
    (append_event st ep t pl k b).2 = st := by
  unfold append_event
  cases hx : find_by_key st.events k with
  | none => exact absurd hx h
  | some e => rfl

/-- After any `append_event` call, its idempotency key is present. -/
theorem append_event_key_present (st : LogState) (ep t pl k : String) (b : Bool) :
    find_by_key ((append_event st ep t pl k b).2).events k ≠ none := by
  unfold append_event
  cases hx : find_by_key st.events k with
  | none =>
    simp only []
    intro hc
    rw [find_by_key_append_self st.events _ hx] at hc
    exact Option.noConfusion hc
  | some e =>
    simp only []
    rw [hx]
    exact fun hc => Option.noConfusion hc

/-- `append_event` preserves presence of any idempotency key. -/
theorem append_event_key_mono (st : LogState) (ep t pl k k2 : String) (b : Bool)
    (h : find_by_key st.events k2 ≠ none) :
    find_by_key ((append_event st ep t pl k b).2).events k2 ≠ none := by
  unfold append_event
  cases hx : find_by_key st.events k with
  | none => exact find_by_key_mono st.events _ k2 h
  | some e => exact h

/-- A path outside the write list is untouched by `apply_writes`. -/
theorem apply_writes_notin :
    ∀ (la : List ArtifactPayload) (f : String → Option String) (q : String),
      q ∉ la.map artifact_path → apply_writes la f q = f q
  | [], f, q, _ => rfl
  | a :: la, f, q, h => by
    have hq : q ≠ artifact_path a := by
      intro hc
      exact h (by rw [hc]; exact List.mem_cons_self _ _)
    have hrest : q ∉ la.map artifact_path := by
      intro hc
      exact h (List.mem_cons_of_mem _ hc)
    show apply_writes la (write_file f (artifact_path a) a.content) q = f q
    rw [apply_writes_notin la _ q hrest]
    unfold write_file
    rw [if_neg hq]

/-- `apply_writes` only depends on the starting directory outside the write
list. -/
theorem apply_writes_congr :
    ∀ (la : List ArtifactPayload) (f g : String → Option String),
      (∀ q, q ∉ la.map artifact_path → f q = g q) →
      apply_writes la f = apply_writes la g
  | [], f, g, h => funext (fun q => h q (by simp))
  | a :: la, f, g, h => by
    show apply_writes la (write_file f (artifact_path a) a.content) =
      apply_writes la (write_file g (artifact_path a) a.content)
    refine apply_writes_congr la _ _ ?_
    intro q hq
    unfold write_file
    by_cases hqa : q = artifact_path a
    · rw [if_pos hqa, if_pos hqa]
    · rw [if_neg hqa, if_neg hqa]
      refine h q ?_
      intro hc
      rcases List.mem_cons.mp hc with hc1 | hc2
      · exact hqa hc1
      · exact hq hc2

/-- Replaying the artifact blob writes is idempotent. -/
theorem apply_writes_idem (la : List ArtifactPayload) (f : String → Option String) :
    apply_writes la (apply_writes la f) = apply_writes la f :=
  apply_writes_congr la _ _ (fun q hq => apply_writes_notin la f q hq)

/-- When the artifact id is supplied, `record_artifact_step` writes the blob,
inserts the row if absent, and appends the `artifact_recorded` event under
its deterministic key; the hash is the content hash in either branch of the
empty-content fallback. -/
theorem record_artifact_step_eq (ep : String) (S : Store) (a : ArtifactPayload)
    (aid : String) (ha : a.artifact_id = some aid) :
    record_artifact_step ep S a =
      { S with
        log := (append_event S.log ep "artifact_recorded"
          (String.intercalate "|"
            ["artifact_recorded", aid, a.artifact_kind, sha256_text a.content])
          ("artifact_recorded:" ++ ep ++ ":" ++ aid ++ ":" ++ sha256_text a.content)
          true).2,
        artifacts := if S.artifacts.any (fun r => r.artifact_id == aid) then S.artifacts
          else S.artifacts ++ [artifact_row_val ep a aid],
        files := write_file S.files ("artifacts/" ++ aid ++ ".txt") a.content } := by
  unfold record_artifact_step
  rw [ha]
  simp only []
  by_cases h : a.content = ""
  · simp [h, write_file, artifact_row_val]
  · simp [h, write_file, artifact_row_val]

/-- When the evidence ref id is supplied, `record_evidence_step` inserts the
row if absent and appends the `evidence_ref_recorded` event under its
deterministic key, both computed from the current table state. -/
theorem record_evidence_step_eq (ep : String) (S : Store) (r : EvidencePayload)
    (rid : String) (hid : r.evidence_ref_id = some rid) :
    record_evidence_step ep S r =
      { S with
        evidence_refs := if S.evidence_refs.any (fun x => x.evidence_ref_id == rid) then
            S.evidence_refs
          else S.evidence_refs ++ [evidence_row_val S.episodes S.artifacts S.files ep r rid],
        log := (append_event S.log ep "evidence_ref_recorded"
          (String.intercalate "|" ["evidence_ref_recorded", rid, r.ref_kind,
            evidence_hash_val S.episodes S.artifacts S.files ep r])
          (evidence_key_val S.episodes S.artifacts S.files ep r rid) true).2 } := by
  unfold record_evidence_step
  rw [hid]
  simp only [evidence_row_val, evidence_hash_val, evidence_key_val,
    evidence_excerpt_val, evidence_target_val]

/-- The artifact loop with all ids supplied: tables other than `artifacts`
are unchanged, the blob directory receives exactly the payload writes, key
presence in the log is monotone, row presence is monotone, and each
processed artifact ends with its row and its event key present. -/
theorem artifact_fold_props (ep : String) :
    ∀ (la : List ArtifactPayload) (S : Store),
      (∀ a ∈ la, ∃ i, a.artifact_id = some i) →
      (la.foldl (record_artifact_step ep) S).episodes = S.episodes ∧
      (la.foldl (record_artifact_step ep) S).evidence_refs = S.evidence_refs ∧
      (la.foldl (record_artifact_step ep) S).gensym = S.gensym ∧
      (la.foldl (record_artifact_step ep) S).files = apply_writes la S.files ∧
      (∀ k, find_by_key S.log.events k ≠ none →
        find_by_key (la.foldl (record_artifact_step ep) S).log.events k ≠ none) ∧
      (∀ pred, S.artifacts.any pred = true →
        (la.foldl (record_artifact_step ep) S).artifacts.any pred = true) ∧
      (∀ a ∈ la, ∀ aid, a.artifact_id = some aid →
        (la.foldl (record_artifact_step ep) S).artifacts.any
          (fun x => x.artifact_id == aid) = true ∧
        find_by_key (la.foldl (record_artifact_step ep) S).log.events
          ("artifact_recorded:" ++ ep ++ ":" ++ aid ++ ":" ++ sha256_text a.content) ≠
          none)
  | [], S, _ =>
    ⟨rfl, rfl, rfl, rfl, fun _ hk => hk, fun _ hp => hp,
      fun a ha => absurd ha (List.not_mem_nil a)⟩
  | a :: la, S, h => by
    obtain ⟨aid, haid⟩ := h a (List.mem_cons_self a la)
    have hstep := record_artifact_step_eq ep S a aid haid
    rw [List.foldl_cons]
    obtain ⟨ih1, ih2, ih3, ih4, ih5, ih6, ih7⟩ :=
      artifact_fold_props ep la (record_artifact_step ep S a)
        (fun x hx => h x (List.mem_cons_of_mem _ hx))
    have e1 : (record_artifact_step ep S a).episodes = S.episodes := by rw [hstep]
    have e2 : (record_artifact_step ep S a).evidence_refs = S.evidence_refs := by
      rw [hstep]
    have e3 : (record_artifact_step ep S a).gensym = S.gensym := by rw [hstep]
    have e4 : (record_artifact_step ep S a).files =
        write_file S.files ("artifacts/" ++ aid ++ ".txt") a.content := by rw [hstep]
    have e5 : (record_artifact_step ep S a).log =
        (append_event S.log ep "artifact_recorded"
          (String.intercalate "|"
            ["artifact_recorded", aid, a.artifact_kind, sha256_text a.content])
          ("artifact_recorded:" ++ ep ++ ":" ++ aid ++ ":" ++ sha256_text a.content)
          true).2 := by rw [hstep]
    have e6 : (record_artifact_step ep S a).artifacts =
        (if S.artifacts.any (fun x => x.artifact_id == aid) then S.artifacts
         else S.artifacts ++ [artifact_row_val ep a aid]) := by rw [hstep]
    have hp : artifact_path a = "artifacts/" ++ aid ++ ".txt" := by
      simp [artifact_path, haid]
    refine ⟨?_, ?_, ?_, ?_, ?_, ?_, ?_⟩
    · rw [ih1, e1]
    · rw [ih2, e2]
    · rw [ih3, e3]
    · rw [ih4, e4]
      show _ = apply_writes la (write_file S.files (artifact_path a) a.content)
      rw [hp]
    · intro k hk
      refine ih5 k ?_
      rw [e5]
      exact append_event_key_mono _ _ _ _ _ k true hk
    · intro pred hpr
      refine ih6 pred ?_
      rw [e6]
      by_cases hb : S.artifacts.any (fun x => x.artifact_id == aid) = true
      · rw [if_pos hb]; exact hpr
      · rw [if_neg hb]
        simp [List.any_append, hpr]
    · intro a2 ha2 aid2 haid2
      rcases List.mem_cons.mp ha2 with rfl | hmem
      · have heq : aid2 = aid := by
          rw [haid] at haid2
          exact (Option.some.inj haid2).symm
        subst heq
        constructor
        · refine ih6 _ ?_
          rw [e6]
          by_cases hb : S.artifacts.any (fun x => x.artifact_id == aid2) = true
          · rw [if_pos hb]; exact hb
          · rw [if_neg hb]
            simp [List.any_append, artifact_row_val]
        · refine ih5 _ ?_
          rw [e5]
          exact append_event_key_present _ _ _ _ _ true
      · exact ih7 a2 hmem aid2 haid2

/-- The evidence loop with all ids supplied: the episode, artifact and blob
state are untouched (so every step computes its key from the same tables),
key presence in the log is monotone, row presence is monotone, and each
processed ref ends with its row and its event key present. -/
theorem evidence_fold_props (ep : String) :
    ∀ (lr : List EvidencePayload) (S : Store),
      (∀ r ∈ lr, ∃ i, r.evidence_ref_id = some i) →
      (lr.foldl (record_evidence_step ep) S).episodes = S.episodes ∧
      (lr.foldl (record_evidence_step ep) S).artifacts = S.artifacts ∧
      (lr.foldl (record_evidence_step ep) S).files = S.files ∧
      (lr.foldl (record_evidence_step ep) S).gensym = S.gensym ∧
      (∀ k, find_by_key S.log.events k ≠ none →
        find_by_key (lr.foldl (record_evidence_step ep) S).log.events k ≠ none) ∧
      (∀ pred, S.evidence_refs.any pred = true →
        (lr.foldl (record_evidence_step ep) S).evidence_refs.any pred = true) ∧
      (∀ r ∈ lr, ∀ rid, r.evidence_ref_id = some rid →
        (lr.foldl (record_evidence_step ep) S).evidence_refs.any
          (fun x => x.evidence_ref_id == rid) = true ∧
        find_by_key (lr.foldl (record_evidence_step ep) S).log.events
          (evidence_key_val S.episodes S.artifacts S.files ep r rid) ≠ none)
  | [], S, _ =>
    ⟨rfl, rfl, rfl, rfl, fun _ hk => hk, fun _ hp => hp,
      fun r hr => absurd hr (List.not_mem_nil r)⟩
  | r :: lr, S, h => by
    obtain ⟨rid, hrid⟩ := h r (List.mem_cons_self r lr)
    have hstep := record_evidence_step_eq ep S r rid hrid
    rw [List.foldl_cons]
    obtain ⟨ih1, ih2, ih3, ih4, ih5, ih6, ih7⟩ :=
      evidence_fold_props ep lr (record_evidence_step ep S r)
        (fun x hx => h x (List.mem_cons_of_mem _ hx))
    have e1 : (record_evidence_step ep S r).episodes = S.episodes := by rw [hstep]
    have e2 : (record_evidence_step ep S r).artifacts = S.artifacts := by rw [hstep]
    have e3 : (record_evidence_step ep S r).files = S.files := by rw [hstep]
    have e4 : (record_evidence_step ep S r).gensym = S.gensym := by rw [hstep]
    have e5 : (record_evidence_step ep S r).log =
        (append_event S.log ep "evidence_ref_recorded"
          (String.intercalate "|" ["evidence_ref_recorded", rid, r.ref_kind,
            evidence_hash_val S.episodes S.artifacts S.files ep r])
          (evidence_key_val S.episodes S.artifacts S.files ep r rid) true).2 := by
      rw [hstep]
    have e6 : (record_evidence_step ep S r).evidence_refs =
        (if S.evidence_refs.any (fun x => x.evidence_ref_id == rid) then
          S.evidence_refs
         else S.evidence_refs ++
          [evidence_row_val S.episodes S.artifacts S.files ep r rid]) := by
      rw [hstep]
    rw [e1, e2, e3] at ih7
    refine ⟨?_, ?_, ?_, ?_, ?_, ?_, ?_⟩
    · rw [ih1, e1]
    · rw [ih2, e2]
    · rw [ih3, e3]
    · rw [ih4, e4]
    · intro k hk
      refine ih5 k ?_
      rw [e5]
      exact append_event_key_mono _ _ _ _ _ k true hk
    · intro pred hpr
      refine ih6 pred ?_
      rw [e6]
      by_cases hb : S.evidence_refs.any (fun x => x.evidence_ref_id == rid) = true
      · rw [if_pos hb]; exact hpr
      · rw [if_neg hb]
        simp [List.any_append, hpr]
    · intro r2 hr2 rid2 hrid2
      rcases List.mem_cons.mp hr2 with rfl | hmem
      · have heq : rid2 = rid := by
          rw [hrid] at hrid2
          exact (Option.some.inj hrid2).symm
        subst heq
        constructor
        · refine ih6 _ ?_
          rw [e6]
          by_cases hb : S.evidence_refs.any (fun x => x.evidence_ref_id == rid2) = true
          · rw [if_pos hb]; exact hb
          · rw [if_neg hb]
            simp [List.any_append, evidence_row_val]
        · refine ih5 _ ?_
          rw [e5]
          exact append_event_key_present _ _ _ _ _ true
      · exact ih7 r2 hmem rid2 hrid2

/-- Replaying the artifact loop when every row and event key is already
present only replays the blob writes. -/
theorem artifact_fold_noop (ep : String) :
    ∀ (la : List ArtifactPayload) (S : Store),
      (∀ a ∈ la, ∃ aid, a.artifact_id = some aid ∧
        S.artifacts.any (fun x => x.artifact_id == aid) = true ∧
        find_by_key S.log.events
          ("artifact_recorded:" ++ ep ++ ":" ++ aid ++ ":" ++ sha256_text a.content) ≠
          none) →
      la.foldl (record_artifact_step ep) S = { S with files := apply_writes la S.files }
  | [], _, _ => rfl
  | a :: la, S, h => by
    obtain ⟨aid, haid, hany, hkey⟩ := h a (List.mem_cons_self a la)
    have hp : artifact_path a = "artifacts/" ++ aid ++ ".txt" := by
      simp [artifact_path, haid]
    have hstep2 : record_artifact_step ep S a =
        { S with files := write_file S.files ("artifacts/" ++ aid ++ ".txt") a.content } := by
      rw [record_artifact_step_eq ep S a aid haid, if_pos hany,
        append_event_noop _ _ _ _ _ _ hkey]
    rw [List.foldl_cons, hstep2]
    rw [artifact_fold_noop ep la
      { S with files := write_file S.files ("artifacts/" ++ aid ++ ".txt") a.content }
      (fun x hx => h x (List.mem_cons_of_mem _ hx))]
    have hw : apply_writes (a :: la) S.files =
        apply_writes la (write_file S.files ("artifacts/" ++ aid ++ ".txt") a.content) := by
      show apply_writes la (write_file S.files (artifact_path a) a.content) = _
      rw [hp]
    rw [hw]

/-- Replaying the evidence loop when every row and event key is already
present changes nothing. -/
theorem evidence_fold_noop (ep : String) :
    ∀ (lr : List EvidencePayload) (S : Store),
      (∀ r ∈ lr, ∃ rid, r.evidence_ref_id = some rid ∧
        S.evidence_refs.any (fun x => x.evidence_ref_id == rid) = true ∧
        find_by_key S.log.events
          (evidence_key_val S.episodes S.artifacts S.files ep r rid) ≠ none) →
      lr.foldl (record_evidence_step ep) S = S
  | [], _, _ => rfl
  | r :: lr, S, h => by
    obtain ⟨rid, hrid, hany, hkey⟩ := h r (List.mem_cons_self r lr)
    have hstep2 : record_evidence_step ep S r = S := by
      rw [record_evidence_step_eq ep S r rid hrid, if_pos hany,
        append_event_noop _ _ _ _ _ _ hkey]
    rw [List.foldl_cons, hstep2]
    exact evidence_fold_noop ep lr S (fun x hx => h x (List.mem_cons_of_mem _ hx))

/-- With the episode id supplied, `record_episode` is the episode phase,
then the artifact and evidence loops, then the `consolidation_triggered`
event. -/
theorem record_episode_phases (S : Store) (p : EpisodePayload) (eid : String)
    (hep : p.episode_id = some eid) :
    record_episode S p =
      { p.evidence_refs.foldl (record_evidence_step eid)
          (p.artifacts.foldl (record_artifact_step eid) (episode_phase_store S p eid)) with
        log := (append_event
          (p.evidence_refs.foldl (record_evidence_step eid)
            (p.artifacts.foldl (record_artifact_step eid)
              (episode_phase_store S p eid))).log
          eid "consolidation_triggered"
          (String.intercalate "|" ["consolidation_triggered", eid])
          ("consolidation_triggered:" ++ eid) true).2 } := by
  unfold record_episode episode_phase_store episode_row_val
  rw [hep]

/-- C9 (amended): when the payload supplies `episode_id` and every
artifact id and evidence ref id, `record_episode` is idempotent — the
second run finds every idempotency key and every table row already present,
re-applies only the blob writes (which replay to the same directory), and
returns the identical store. -/
theorem record_episode_idempotent_with_ids (st : Store) (p : EpisodePayload)
    (eid : String) (hep : p.episode_id = some eid)
    (hart : ∀ a ∈ p.artifacts, ∃ i, a.artifact_id = some i)
    (hev : ∀ r ∈ p.evidence_refs, ∃ i, r.evidence_ref_id = some i) :
    record_episode (record_episode st p) p = record_episode st p := by
  have h1 := record_episode_phases st p eid hep
  have h2 := record_episode_phases (record_episode st p) p eid hep
  obtain ⟨hA1, hA2, hA3, hA4, hA5, hA6, hA7⟩ :=
    artifact_fold_props eid p.artifacts (episode_phase_store st p eid) hart
  obtain ⟨hE1, hE2, hE3, hE4, hE5, hE6, hE7⟩ :=
    evidence_fold_props eid p.evidence_refs
      (p.artifacts.foldl (record_artifact_step eid) (episode_phase_store st p eid)) hev
  have hFepis3 : (record_episode st p).episodes =
      (p.artifacts.foldl (record_artifact_step eid)
        (episode_phase_store st p eid)).episodes := by
    rw [h1]; exact hE1
  have hFart3 : (record_episode st p).artifacts =
      (p.artifacts.foldl (record_artifact_step eid)
        (episode_phase_store st p eid)).artifacts := by
    rw [h1]; exact hE2
  have hFfiles3 : (record_episode st p).files =
      (p.artifacts.foldl (record_artifact_step eid)
        (episode_phase_store st p eid)).files := by
    rw [h1]; exact hE3
  have hFev : (record_episode st p).evidence_refs =
      (p.evidence_refs.foldl (record_evidence_step eid)
        (p.artifacts.foldl (record_artifact_step eid)
          (episode_phase_store st p eid))).evidence_refs := by
    rw [h1]
  have hFlog_key : ∀ k,
      find_by_key (p.evidence_refs.foldl (record_evidence_step eid)
        (p.artifacts.foldl (record_artifact_step eid)
          (episode_phase_store st p eid))).log.events k ≠ none →
      find_by_key (record_episode st p).log.events k ≠ none := by
    intro k hk
    rw [h1]
    exact append_event_key_mono _ _ _ _ _ k true hk
  have hkey1 : find_by_key (record_episode st p).log.events
      ("episode_recorded:" ++ eid ++ ":" ++ sha256_text (canonical_episode eid p)) ≠
      none := by
    refine hFlog_key _ (hE5 _ (hA5 _ ?_))
    exact append_event_key_present _ _ _ _ _ true
  have hany_ep : (record_episode st p).episodes.any
      (fun r => r.episode_id == eid) = true := by
    rw [hFepis3, hA1]
    show (if st.episodes.any (fun r => r.episode_id == eid) then st.episodes
      else st.episodes ++ [episode_row_val eid p]).any
        (fun r => r.episode_id == eid) = true
    by_cases hb : st.episodes.any (fun r => r.episode_id == eid) = true
    · rw [if_pos hb]; exact hb
    · rw [if_neg hb]
      simp [List.any_append, episode_row_val]
  have hT2 : episode_phase_store (record_episode st p) p eid = record_episode st p := by
    unfold episode_phase_store
    rw [if_pos hany_ep, append_event_noop _ _ _ _ _ _ hkey1]
  have hart2 : ∀ a ∈ p.artifacts, ∃ aid, a.artifact_id = some aid ∧
      (record_episode st p).artifacts.any (fun x => x.artifact_id == aid) = true ∧
      find_by_key (record_episode st p).log.events
        ("artifact_recorded:" ++ eid ++ ":" ++ aid ++ ":" ++ sha256_text a.content) ≠
        none := by
    intro a ha
    obtain ⟨aid, haid⟩ := hart a ha
    obtain ⟨hpres, hkey⟩ := hA7 a ha aid haid
    refine ⟨aid, haid, ?_, hFlog_key _ (hE5 _ hkey)⟩
    rw [hFart3]
    exact hpres
  have hFfiles : (record_episode st p).files = apply_writes p.artifacts st.files := by
    rw [hFfiles3]
    exact hA4
  have hfiles_idem : apply_writes p.artifacts (record_episode st p).files =
      (record_episode st p).files := by
    rw [hFfiles]
    exact apply_writes_idem p.artifacts st.files
  have hT3 : p.artifacts.foldl (record_artifact_step eid) (record_episode st p) =
      record_episode st p := by
    rw [artifact_fold_noop eid p.artifacts (record_episode st p) hart2, hfiles_idem]
  have hev2 : ∀ r ∈ p.evidence_refs, ∃ rid, r.evidence_ref_id = some rid ∧
      (record_episode st p).evidence_refs.any
        (fun x => x.evidence_ref_id == rid) = true ∧
      find_by_key (record_episode st p).log.events
        (evidence_key_val (record_episode st p).episodes
          (record_episode st p).artifacts (record_episode st p).files eid r rid) ≠
        none := by
    intro r hr
    obtain ⟨rid, hrid⟩ := hev r hr
    obtain ⟨hpres, hkey⟩ := hE7 r hr rid hrid
    refine ⟨rid, hrid, ?_, ?_⟩
    · rw [hFev]
      exact hpres
    · rw [hFepis3, hFart3, hFfiles3]
      exact hFlog_key _ hkey
  have hT4 : p.evidence_refs.foldl (record_evidence_step eid) (record_episode st p) =
      record_episode st p :=
    evidence_fold_noop eid p.evidence_refs (record_episode st p) hev2
  have hkey2 : find_by_key (record_episode st p).log.events
      ("consolidation_triggered:" ++ eid) ≠ none := by
    rw [h1]
    exact append_event_key_present _ _ _ _ _ true
  rw [h2, hT2, hT3, hT4, append_event_noop _ _ _ _ _ _ hkey2]

/-- C9 counterexample: on a payload whose evidence ref omits
`evidence_ref_id`, the second `record_episode` run generates a fresh id,
whose idempotency key is new, so it appends a fourth event and the event
logs of the two runs differ. -/
theorem record_episode_not_idempotent_counterexample :
    (record_episode (record_episode Store.init c9_payload) c9_payload).log.events.length ≠
    (record_episode Store.init c9_payload).log.events.length := by
  with_unfolding_all decide

/-- Witness for C9 (amended): a payload with all identifiers supplied, with
all three hypotheses discharged concretely. -/
theorem record_episode_idempotent_with_ids_witness :
    c9_full_payload.episode_id = some "ep2" ∧
    (∀ a ∈ c9_full_payload.artifacts, ∃ i, a.artifact_id = some i) ∧
    (∀ r ∈ c9_full_payload.evidence_refs, ∃ i, r.evidence_ref_id = some i) ∧
    record_episode (record_episode Store.init c9_full_payload) c9_full_payload =
      record_episode Store.init c9_full_payload :=
  ⟨rfl,
   fun a ha => ⟨"art1", by rw [List.mem_singleton.mp ha]; rfl⟩,
   fun r hr => ⟨"ev9", by rw [List.mem_singleton.mp hr]; rfl⟩,
   record_episode_idempotent_with_ids Store.init c9_full_payload "ep2" rfl
     (fun a ha => ⟨"art1", by rw [List.mem_singleton.mp ha]; rfl⟩)
     (fun r hr => ⟨"ev9", by rw [List.mem_singleton.mp hr]; rfl⟩)⟩

/-! ## Witnesses for the remaining claims -/

/-- Witness for C1: a log holding key `"k"`; re-append under `"k"` returns
the stored identifiers without inserting, and an append under the fresh key
`"k2"` inserts exactly one event. -/
theorem append_event_idempotency_contract_witness :
    find_by_key c1_log.events "k" = some c1_event ∧
    append_event c1_log "ep2" "t2" "pl2" "k" true =
      ({ event_id := 1, episode_id := "ep", seq_no := 1, inserted := false }, c1_log) ∧
    find_by_key c1_log.events "k2" = none ∧
    (append_event c1_log "ep" "t" "pl" "k2" true).1.inserted = true ∧
    (append_event c1_log "ep" "t" "pl" "k2" true).2.events.length =
      c1_log.events.length + 1 :=
  ⟨rfl,
   (append_event_idempotency_contract c1_log "ep2" "t2" "pl2" "k" true).1 c1_event rfl,
   rfl,
   ((append_event_idempotency_contract c1_log "ep" "t" "pl" "k2" true).2 rfl).1,
   ((append_event_idempotency_contract c1_log "ep" "t" "pl" "k2" true).2 rfl).2⟩

/-- Witness for C2: in the one-event reachable log, episode `"ep"` has
sequence `[1]` and a fresh append is assigned `max + 1 = 2`. -/
theorem append_event_seq_gapless_witness :
    seq_nos c2_log "ep" = List.range' 1 (seq_nos c2_log "ep").length ∧
    find_by_key c2_log.events "k2" = none ∧
    (append_event c2_log "ep" "t2" "pl2" "k2" true).1.seq_no =
      max_seq c2_log.events "ep" + 1 ∧
    max_seq c2_log.events "ep" = (seq_nos c2_log "ep").length :=
  ⟨(append_event_seq_gapless c2_log
      (ReachableLog.step LogState.init "ep" "t" "pl" "k" true ReachableLog.init)
      "ep").1,
   rfl,
   ((append_event_seq_gapless c2_log
      (ReachableLog.step LogState.init "ep" "t" "pl" "k" true ReachableLog.init)
      "ep").2 "t2" "pl2" "k2" true rfl).1,
   ((append_event_seq_gapless c2_log
      (ReachableLog.step LogState.init "ep" "t" "pl" "k" true ReachableLog.init)
      "ep").2 "t2" "pl2" "k2" true rfl).2⟩

/-- Witness for C3 (amended): the counterexample candidate passes the
evidence invariant, so the duplicate decision is equivalent to the single
best match meeting both thresholds. -/
theorem duplicate_gate_best_match_iff_witness :
    (validate_evidence_invariant cex_candidate cex_evidence).1 = true ∧
    (candidate_decision cex_candidate [cex_cardA, cex_cardB] cex_evidence
        (fun _ => 0) 0 = .rejected "duplicate_of_existing_card" ↔
      (∃ b, find_best_similarity_match cex_candidate [cex_cardA, cex_cardB] = some b ∧
        4/5 ≤ b.lex ∧ match_cos_ge b (23/25) = true)) :=
  ⟨by decide,
   duplicate_gate_best_match_iff cex_candidate [cex_cardA, cex_cardB] cex_evidence
     (fun _ => 0) 0 (by decide)⟩

/-- Witness for C5 (amended): concrete nonnegative embeddings and stats
satisfying the hypotheses, with the component ranges instantiated. -/
theorem retrieve_cards_component_ranges_witness :
    (∀ x ∈ ([1, 2] : List ℚ), 0 ≤ x) ∧ (∀ x ∈ ([3, 4] : List ℚ), 0 ≤ x) ∧
    2 ≤ 4 ∧ 1 ≤ 4 ∧
    ((0 ≤ jaccard_similarity "alpha beta" "beta alpha" ∧
      jaccard_similarity "alpha beta" "beta alpha" ≤ 1) ∧
    (0 ≤ dot_vec [1, 2] [3, 4] ∧
      dot_vec [1, 2] [3, 4] ^ 2 ≤ norm_sq_vec [1, 2] * norm_sq_vec [3, 4]) ∧
    (0 ≤ scope_score "repo" "r" "repo" "r" ∧ scope_score "repo" "r" "repo" "r" ≤ 1) ∧
    (0 ≤ kind_prior "tactic" ∧ kind_prior "tactic" ≤ 1) ∧
    (0 ≤ status_weight "active" "auto_pack" ∧
      status_weight "active" "auto_pack" ≤ 1) ∧
    (0 ≤ recency_component 2 4 ∧ recency_component 2 4 ≤ 1) ∧
    (-1 ≤ utility_component "tactic" 3 1 5 ∧ utility_component "tactic" 3 1 5 ≤ 2)) :=
  ⟨by with_unfolding_all decide, by with_unfolding_all decide, by decide, by decide,
   retrieve_cards_component_ranges "alpha beta" "beta alpha" [1, 2] [3, 4]
     3 1 5 2 4 "tactic" "active" "auto_pack" "repo" "r" "repo" "r"
     (by with_unfolding_all decide) (by with_unfolding_all decide)
     (by decide) (by decide)⟩

/-- Witness for C6: the pack built from a single ranked fact card satisfies
the cap, membership and exposure-count invariants. -/
theorem build_pack_invariants_witness :
    (pack_select [c6_card] false).length ≤ PACK_TOTAL_CAP ∧
    (∀ c ∈ pack_select [c6_card] false, c ∈ [c6_card]) ∧
    (pack_exposures "p1" "auto_pack" (pack_select [c6_card] false)).length =
      (pack_select [c6_card] false).length :=
  ⟨(build_pack_invariants [c6_card] false "p1" "auto_pack").1,
   (build_pack_invariants [c6_card] false "p1" "auto_pack").2.2.2.2.2.2.1,
   (build_pack_invariants [c6_card] false "p1" "auto_pack").2.2.2.2.2.2.2.2.1⟩
